import Mathlib

/-!
# Luna `ltorrent` server: process-lifecycle scaffolding

A shallow embedding of `contrib/ltorrent/server/server.cpp`.

Every function of the source is a state-passing Lean function over `St σ`:
the kernel state `σ` (owned by an `OS σ` record that gives the meaning of
each system call), the static flag `LTorrent::running_`, and the trace of the
calls made so far, each recorded with the value it returned.  A function ends
by returning, by `exit`, or because a signal it sent to a process group it
belongs to terminated it inside the sending call.  Theorems quantify over
every `OS σ`, so they hold for whatever the kernel and the other processes
do; `posix` is one concrete kernel, used to run the code on explicit inputs.
-/

namespace Luna

/-! ## Constants of the C library -/

def EXIT_SUCCESS : Int := 0
def EXIT_FAILURE : Int := 1
def SIGKILL : Int := 9
def SIGTERM : Int := 15
def S_IFMT : Nat := 0o170000
def S_IFDIR : Nat := 0o040000
def S_IFREG : Nat := 0o100000

/-- The value `(uid_t)-1`, also `(gid_t)-1`: the id that `chown` reads as
"leave unchanged". -/
def NO_ID : Nat := 4294967295

/-! ## Data model -/

/-- Modelled from the spec: the `OptionParser` type is declared outside
`server.cpp`; these are the members the file reads (spec section 3,
"Configuration"). -/
structure OptionParser where
  homeDir : String
  logDir : String
  pidDir : String
  pidFile : String
  user : String
  pw_uid : Nat
  pw_gid : Nat
  daemonize : Bool
  killtimeout : Int

/-- The members of `struct stat` that the code or the claims look at. -/
structure StatInfo where
  st_mode : Nat
  st_uid : Nat
  st_gid : Nat
deriving DecidableEq

/-- Severity of a log record. -/
inductive Level where
  | trace
  | debug
  | info
  | error
deriving DecidableEq

/-- One observable action of the program, with the value the call returned. -/
inductive Event where
  | stat (path : String) (found : Bool)
  | mkdir (path : String) (mode : Nat) (ret : Int)
  | chown (path : String) (uid gid : Nat) (ret : Int)
  | ifstream (path : String) (opened : Bool)
  | kill (pid sig ret : Int)
  | getpgid (pid ret : Int)
  | sleep (seconds : Nat)
  | killpg (pgid sig ret : Int)
  | remove (path : String) (ret : Int)
  | setuid (uid : Nat) (ret : Int)
  | fork (ret : Int)
  | setsid (ret : Int)
  | umask (mask : Nat)
  | close (fd : Int)
  | quit (status : Int)
  | signal (sig : Int)
  | getpid (ret : Int)
  | ofstream_open (path : String) (opened : Bool)
  | ofstream_write (path : String) (text : List Char)
  | ofstream_close (path : String)
  | chdir (path : String) (ret : Int)
  | getLogger
  | log (lvl : Level)
  | cerr
  | perror
deriving DecidableEq

/-- The meaning of the system and library calls used by `server.cpp`, over a
kernel state `σ`.  A call returns what the C call returns together with the
new kernel state; `stat`, `getpgid`, `getpid` and reading a file only
observe.  `alive` tells whether the calling process is still running: a
signal it sends to a group it belongs to can terminate it, and then the
sending call never returns. -/
structure OS (σ : Type) where
  stat : String → σ → Option StatInfo
  mkdir : String → Nat → σ → Int × σ
  chown : String → Nat → Nat → σ → Int × σ
  slurp : String → σ → Option (List Char)
  kill : Int → Int → σ → Int × σ
  getpgid : Int → σ → Int
  sleep : Nat → σ → σ
  killpg : Int → Int → σ → Int × σ
  remove : String → σ → Int × σ
  setuid : Nat → σ → Int × σ
  fork : σ → Int × σ
  setsid : σ → Int × σ
  umask : Nat → σ → σ
  close : Int → σ → σ
  signal : Int → σ → σ
  getpid : σ → Int
  creat : String → σ → Bool × σ
  append : String → List Char → σ → σ
  chdir : String → σ → Int × σ
  alive : σ → Bool

/-- Program state: kernel state, the static `LTorrent::running_`, and the
trace of actions so far (oldest first). -/
structure St (σ : Type) where
  os : σ
  running_ : Bool
  trace : List Event

/-- State at process start: `bool LTorrent::running_ = true;`, empty trace. -/
def St.start {σ : Type} (w : σ) : St σ :=
  { os := w, running_ := true, trace := [] }

/-- How a function ends: it returns, it calls `exit`, or the process is
terminated by a signal before it can return. -/
inductive Outcome where
  | returned (code : Int)
  | exited (status : Int)
  | killed (sig : Int)
deriving DecidableEq

section Calls

variable {σ : Type}

/-- Append one event to the trace. -/
def emit (e : Event) (s : St σ) : St σ :=
  { s with trace := s.trace ++ [e] }

/-- Modelled from the spec: the `log_trace`, `log_debug`, `log_info` and
`log_error` helpers come from `server.hpp`; per spec section 6 they emit one
record of the given level to the logging collaborator. -/
def log (lvl : Level) (s : St σ) : St σ := emit (Event.log lvl) s

/-- Writing a line to `std::cerr`. -/
def cerr (s : St σ) : St σ := emit Event.cerr s

/-- The call `std::perror`. -/
def perror (s : St σ) : St σ := emit Event.perror s

def sys_stat (K : OS σ) (path : String) (s : St σ) : Option StatInfo × St σ :=
  (K.stat path s.os, emit (Event.stat path (K.stat path s.os).isSome) s)

def sys_mkdir (K : OS σ) (path : String) (mode : Nat) (s : St σ) : Int × St σ :=
  ((K.mkdir path mode s.os).1,
   emit (Event.mkdir path mode (K.mkdir path mode s.os).1)
     { s with os := (K.mkdir path mode s.os).2 })

def sys_chown (K : OS σ) (path : String) (uid gid : Nat) (s : St σ) : Int × St σ :=
  ((K.chown path uid gid s.os).1,
   emit (Event.chown path uid gid (K.chown path uid gid s.os).1)
     { s with os := (K.chown path uid gid s.os).2 })

def sys_kill (K : OS σ) (pid sig : Int) (s : St σ) : Int × St σ :=
  ((K.kill pid sig s.os).1,
   emit (Event.kill pid sig (K.kill pid sig s.os).1)
     { s with os := (K.kill pid sig s.os).2 })

def sys_getpgid (K : OS σ) (pid : Int) (s : St σ) : Int × St σ :=
  (K.getpgid pid s.os, emit (Event.getpgid pid (K.getpgid pid s.os)) s)

def sys_sleep (K : OS σ) (seconds : Nat) (s : St σ) : St σ :=
  emit (Event.sleep seconds) { s with os := K.sleep seconds s.os }

/-- The call `killpg(pgid, sig)`.  The first component is the value returned,
or `none` when the signal has terminated the calling process itself, so that
the call does not return; the event records the kernel's delivery status
either way. -/
def sys_killpg (K : OS σ) (pgid sig : Int) (s : St σ) : Option Int × St σ :=
  (if K.alive (K.killpg pgid sig s.os).2 then some (K.killpg pgid sig s.os).1 else none,
   emit (Event.killpg pgid sig (K.killpg pgid sig s.os).1)
     { s with os := (K.killpg pgid sig s.os).2 })

def sys_remove (K : OS σ) (path : String) (s : St σ) : Int × St σ :=
  ((K.remove path s.os).1,
   emit (Event.remove path (K.remove path s.os).1)
     { s with os := (K.remove path s.os).2 })

def sys_fork (K : OS σ) (s : St σ) : Int × St σ :=
  ((K.fork s.os).1, emit (Event.fork (K.fork s.os).1) { s with os := (K.fork s.os).2 })

def sys_setsid (K : OS σ) (s : St σ) : Int × St σ :=
  ((K.setsid s.os).1,
   emit (Event.setsid (K.setsid s.os).1) { s with os := (K.setsid s.os).2 })

def sys_umask (K : OS σ) (mask : Nat) (s : St σ) : St σ :=
  emit (Event.umask mask) { s with os := K.umask mask s.os }

def sys_close (K : OS σ) (fd : Int) (s : St σ) : St σ :=
  emit (Event.close fd) { s with os := K.close fd s.os }

/-- The call `exit(status)`: the process ends here. -/
def sys_quit (status : Int) (s : St σ) : St σ := emit (Event.quit status) s

def sys_getpid (K : OS σ) (s : St σ) : Int × St σ :=
  (K.getpid s.os, emit (Event.getpid (K.getpid s.os)) s)

def sys_chdir (K : OS σ) (path : String) (s : St σ) : Int × St σ :=
  ((K.chdir path s.os).1,
   emit (Event.chdir path (K.chdir path s.os).1) { s with os := (K.chdir path s.os).2 })

def sys_ifstream (K : OS σ) (path : String) (s : St σ) : Option (List Char) × St σ :=
  (K.slurp path s.os, emit (Event.ifstream path (K.slurp path s.os).isSome) s)

def sys_creat (K : OS σ) (path : String) (s : St σ) : Bool × St σ :=
  ((K.creat path s.os).1,
   emit (Event.ofstream_open path (K.creat path s.os).1) { s with os := (K.creat path s.os).2 })

def sys_append (K : OS σ) (path : String) (text : List Char) (s : St σ) : St σ :=
  emit (Event.ofstream_write path text) { s with os := K.append path text s.os }

end Calls

/-! ## Formatted stream input and output of the C++ library -/

def INT_MAX : Int := 2147483647
def INT_MIN : Int := -2147483648

/-- What `stream >> value` does to an `int` variable: store the parsed number,
store zero (no digits where a number was expected, C++11), or leave the
variable as it was (the stream was not readable, or ended before any
non-blank character). -/
inductive Extracted where
  | value (n : Int)
  | zeroed
  | untouched
deriving DecidableEq

/-- White space skipped before a number: blank, tab, newline, vertical tab,
form feed, carriage return. -/
def isBlank (c : Char) : Bool := c.toNat = 32 || (9 ≤ c.toNat && c.toNat ≤ 13)

/-- Decimal digit test. -/
def isDigit (c : Char) : Bool := 48 ≤ c.toNat && c.toNat ≤ 57

/-- Value of the leading run of decimal digits, continuing from `acc`. -/
def digitsValue (acc : Nat) : List Char → Nat
  | [] => acc
  | c :: cs => if isDigit c then digitsValue (acc * 10 + (c.toNat - 48)) cs else acc

/-- Out-of-range results are stored as the nearest `int`. -/
def clampInt (v : Int) : Int :=
  if v > INT_MAX then INT_MAX else if v < INT_MIN then INT_MIN else v

/-- What follows the optional sign: a number if it starts with a digit. -/
def extractDigits (negative : Bool) (body : List Char) : Extracted :=
  match body with
  | [] => Extracted.zeroed
  | d :: rest =>
    if isDigit d then
      Extracted.value
        (clampInt (if negative then -(digitsValue 0 (d :: rest) : Int) else digitsValue 0 (d :: rest)))
    else Extracted.zeroed

/-- Formatted extraction of an `int` from the text of a stream. -/
def extractInt (text : List Char) : Extracted :=
  match text.dropWhile isBlank with
  | [] => Extracted.untouched
  | c :: cs =>
    if c.toNat = 45 then extractDigits true cs
    else if c.toNat = 43 then extractDigits false cs
    else extractDigits false (c :: cs)

/-- Value of `pid` after `std::ifstream pidfile(path); pid_t pid; pidfile >> pid;`
when the variable held `uninit` before (it is declared without initialiser)
and `contents` is the text of the file, or `none` if it could not be opened. -/
def pidAfterExtract (contents : Option (List Char)) (uninit : Int) : Int :=
  match contents with
  | none => uninit
  | some text =>
    match extractInt text with
    | Extracted.value n => n
    | Extracted.zeroed => 0
    | Extracted.untouched => uninit

/-- Decimal text of an integer, as written by `stream << n`. -/
def decimal (n : Int) : List Char :=
  if n < 0 then (Char.ofNat 45) :: Nat.toDigits 10 n.natAbs else Nat.toDigits 10 n.natAbs

/-! ## The functions of `server.cpp` -/

section Source

variable {σ : Type}

/-- `int create_dir(std::string path)` -/
def create_dir (K : OS σ) (path : String) (s : St σ) : Int × St σ :=
  let st := sys_stat K path s
  match st.1 with
  | some info =>
    if (info.st_mode &&& S_IFMT) = S_IFDIR then (EXIT_SUCCESS, st.2)
    else (EXIT_FAILURE, cerr st.2)
  | none =>
    let mk := sys_mkdir K path 0o750 st.2
    if mk.1 ≠ 0 then (EXIT_FAILURE, cerr (perror mk.2))
    else (EXIT_SUCCESS, mk.2)

/-- `int chowner(std::string path, uid_t pw_uid, gid_t pw_gid)` -/
def chowner (K : OS σ) (path : String) (pw_uid pw_gid : Nat) (s : St σ) : Int × St σ :=
  let ch := sys_chown K path pw_uid pw_gid s
  if ch.1 ≠ 0 then (EXIT_FAILURE, cerr (perror ch.2))
  else (EXIT_SUCCESS, ch.2)

/-- `int create_dir_and_chown(std::string path, uid_t pw_uid, gid_t pw_gid)` -/
def create_dir_and_chown (K : OS σ) (path : String) (pw_uid pw_gid : Nat) (s : St σ) :
    Int × St σ :=
  let cd := create_dir K path s
  if cd.1 ≠ 0 then (EXIT_FAILURE, cd.2)
  else
    let co := chowner K path pw_uid pw_gid cd.2
    if co.1 ≠ 0 then (EXIT_FAILURE, co.2)
    else (EXIT_SUCCESS, co.2)

set_option linter.dupNamespace false

namespace LTorrent

/-- `int LTorrent::createDirs(const OptionParser &opts)` -/
def createDirs (K : OS σ) (opts : OptionParser) (s : St σ) : Int × St σ :=
  let a := create_dir_and_chown K opts.logDir opts.pw_uid opts.pw_gid s
  if a.1 ≠ 0 then (EXIT_FAILURE, a.2)
  else
    let b := create_dir_and_chown K opts.pidDir opts.pw_uid opts.pw_gid a.2
    if b.1 ≠ 0 then (EXIT_FAILURE, b.2)
    else (EXIT_SUCCESS, b.2)

/-- The loop of `killProcess`, entered with the given value of `seconds`:
`while (seconds < opts.killtimeout) { sleep(1); if (killpg(pgid, SIGTERM))
return(EXIT_SUCCESS); seconds++; }`.  The first component is `some o` when
the function ended inside the loop with outcome `o` (the `return`, or the
process terminated by its own SIGTERM), `none` when the loop condition became
false. -/
def killLoop (K : OS σ) (pgid killtimeout : Int) (seconds : Int) (s : St σ) :
    Option Outcome × St σ :=
  if seconds < killtimeout then
    let k := sys_killpg K pgid SIGTERM (sys_sleep K 1 s)
    match k.1 with
    | none => (some (Outcome.killed SIGTERM), k.2)
    | some r =>
      if r ≠ 0 then (some (Outcome.returned EXIT_SUCCESS), k.2)
      else killLoop K pgid killtimeout (seconds + 1) k.2
  else (none, s)
termination_by (killtimeout - seconds).toNat
decreasing_by omega

/-- `int LTorrent::killProcess(const OptionParser &opts)`; `uninit` is the
indeterminate value the local `pid` holds before the extraction.  The probe
`kill(pid, 0)` sends no signal; each `killpg` may terminate the caller. -/
def killProcess (K : OS σ) (opts : OptionParser) (uninit : Int) (s : St σ) :
    Outcome × St σ :=
  let st := sys_stat K opts.pidFile s
  match st.1 with
  | none => (Outcome.returned EXIT_FAILURE, cerr (perror st.2))
  | some info =>
    if ¬ ((info.st_mode &&& S_IFMT) = S_IFREG) then (Outcome.returned EXIT_FAILURE, cerr st.2)
    else
      let rd := sys_ifstream K opts.pidFile st.2
      let pid := pidAfterExtract rd.1 uninit
      let pr := sys_kill K pid 0 rd.2
      if pr.1 ≠ 0 then (Outcome.returned EXIT_FAILURE, cerr pr.2)
      else
        let g := sys_getpgid K pid pr.2
        let pgid := g.1
        let lp := killLoop K pgid opts.killtimeout 0 g.2
        match lp.1 with
        | some o => (o, lp.2)
        | none =>
          let kk := sys_killpg K pgid SIGKILL (cerr lp.2)
          match kk.1 with
          | none => (Outcome.killed SIGKILL, kk.2)
          | some _ =>
            let rm := sys_remove K opts.pidFile kk.2
            if rm.1 ≠ 0 then (Outcome.returned EXIT_FAILURE, cerr rm.2)
            else (Outcome.returned EXIT_SUCCESS, rm.2)

/-- `void LTorrent::stopHandler(int signal)` -/
def stopHandler (_signal : Int) (s : St σ) : St σ :=
  { log Level.trace (emit Event.getLogger s) with running_ := false }

/-- The loop `for (int i=0; i>=2; i++) { close(i); }` of `daemonize`, entered
with the given `i`; `none` when `fuel` iterations did not end it. -/
def closeLoop (K : OS σ) : Nat → Int → St σ → Option (St σ)
  | 0, _, _ => none
  | fuel + 1, i, s =>
    if i ≥ 2 then closeLoop K fuel (i + 1) (sys_close K i s)
    else some s

/-- `int LTorrent::daemonize()`; `fuel` bounds the closing loop. -/
def daemonize (K : OS σ) (opts_ : OptionParser) (fuel : Nat) (s : St σ) :
    Option (Outcome × St σ) :=
  let s0 := log Level.trace s
  if !opts_.daemonize then some (Outcome.returned EXIT_SUCCESS, log Level.debug s0)
  else
    let fk := sys_fork K (log Level.debug s0)
    let pid := fk.1
    -- first fork
    if pid < 0 then some (Outcome.returned EXIT_FAILURE, log Level.error fk.2)
    -- parent exit
    else if pid > 0 then some (Outcome.exited EXIT_SUCCESS, sys_quit EXIT_SUCCESS fk.2)
    else
      -- child become session leader
      let ss := sys_setsid K (log Level.debug fk.2)
      if ss.1 < 0 then
        some (Outcome.exited EXIT_FAILURE, sys_quit EXIT_FAILURE (log Level.error ss.2))
      -- second fork
      else if pid < 0 then some (Outcome.returned EXIT_FAILURE, log Level.error ss.2)
      -- parent exit (first child)
      else if pid > 0 then some (Outcome.exited EXIT_SUCCESS, sys_quit EXIT_SUCCESS ss.2)
      else
        match closeLoop K fuel 0 (sys_umask K 0 ss.2) with
        | none => none
        | some s1 => some (Outcome.returned EXIT_SUCCESS, s1)

/-- `int LTorrent::createPidFile()` -/
def createPidFile (K : OS σ) (opts_ : OptionParser) (s : St σ) : Int × St σ :=
  let st := sys_stat K opts_.pidFile (log Level.trace s)
  match st.1 with
  | some _ => (EXIT_FAILURE, log Level.error st.2)
  | none =>
    let gp := sys_getpid K st.2
    let pid := gp.1
    let op := sys_creat K opts_.pidFile (log Level.debug (log Level.info gp.2))
    if op.1 then
      let w1 := sys_append K opts_.pidFile (decimal pid) op.2
      let w2 := sys_append K opts_.pidFile [Char.ofNat 10] w1
      (EXIT_SUCCESS, emit (Event.ofstream_close opts_.pidFile) w2)
    else (EXIT_SUCCESS, op.2)

/-- The loop `while (running_) { log_trace("running"); sleep(1); }` of `run`.
The flag is written only by `stopHandler`, which the kernel runs when a
handled signal arrives: `caught` lists, for each successive `sleep(1)`, the
signals caught during it.  `none` when the list ends with the flag still set. -/
def runLoop (K : OS σ) : List (List Int) → St σ → Option (St σ)
  | [], s => if s.running_ then none else some s
  | sigs :: later, s =>
    if s.running_ then
      runLoop K later
        (sigs.foldl (fun acc sg => stopHandler sg acc) (sys_sleep K 1 (log Level.trace s)))
    else some s

/-- `int LTorrent::run()` -/
def run (K : OS σ) (opts_ : OptionParser) (caught : List (List Int)) (s : St σ) :
    Option (Int × St σ) :=
  let cd := sys_chdir K opts_.homeDir (log Level.trace s)
  if cd.1 ≠ 0 then some (EXIT_FAILURE, log Level.error cd.2)
  else
    match runLoop K caught (log Level.debug cd.2) with
    | none => none
    | some s1 => some (0, log Level.debug s1)

end LTorrent

end Source

/-! ## What the directory and PID-file claims assume of the kernel -/

/-- The file-system facts used when a claim speaks of the state after a call:
a successful `mkdir` leaves a directory at the path; a successful `chown`
with ids in the range of `uid_t` and `gid_t` leaves the given owner and group
on it, except that the id `NO_ID` leaves the owner, or the group, as it was;
a successful `remove` leaves nothing at the path; and `mkdir` and `chown` do
not change what `stat` reports for any other path (paths are taken not to
alias each other through links). -/
structure FsLaws {σ : Type} (K : OS σ) : Prop where
  mkdir_dir : ∀ (p : String) (m : Nat) (w : σ), (K.mkdir p m w).1 = 0 →
    ∃ i, K.stat p (K.mkdir p m w).2 = some i ∧ (i.st_mode &&& S_IFMT) = S_IFDIR
  mkdir_frame : ∀ (p : String) (m : Nat) (w : σ) (q : String), q ≠ p →
    K.stat q (K.mkdir p m w).2 = K.stat q w
  chown_owner : ∀ (p : String) (u g : Nat) (w : σ), u ≤ NO_ID → g ≤ NO_ID →
    (K.chown p u g w).1 = 0 →
    ∃ i, K.stat p w = some i ∧
      K.stat p (K.chown p u g w).2 =
        some { i with st_uid := if u = NO_ID then i.st_uid else u,
                      st_gid := if g = NO_ID then i.st_gid else g }
  chown_frame : ∀ (p : String) (u g : Nat) (w : σ) (q : String), q ≠ p →
    K.stat q (K.chown p u g w).2 = K.stat q w
  remove_gone : ∀ (p : String) (w : σ), (K.remove p w).1 = 0 →
    K.stat p (K.remove p w).2 = none

/-! ## A concrete kernel -/

/-- A file-system object. -/
structure Inode where
  st_mode : Nat
  st_uid : Nat
  st_gid : Nat
  text : List Char

/-- A process: its id, its process group, the user it runs as, whether it
ignores SIGTERM, and whether it has terminated without having been collected
by its parent yet (a terminated process keeps its id and group until then,
and signals sent to it are accepted without effect). -/
structure Proc where
  pid : Int
  pgid : Int
  uid : Nat
  ignoresTerm : Bool
  zombie : Bool
deriving DecidableEq

/-- What the other processes do during one second. -/
inductive EnvAct where
  | idle
  | exits (pid : Int)
  | reaps (pid : Int)
  | setpgid (pid pgid : Int)
deriving DecidableEq

/-- Kernel state as seen by the calling process.  Paths are absolute and
normalised. -/
structure World where
  /-- The objects of the file system, by path. -/
  files : List (String × Inode)
  /-- The processes, the caller included. -/
  procs : List Proc
  /-- What the other processes do in each coming second. -/
  script : List EnvAct
  /-- Process id of the caller. -/
  self : Int
  euid : Nat
  egid : Nat
  /-- Return values of the coming `fork` calls on the path followed. -/
  forks : List Int
  nextPid : Int
  /-- Number of forks between the invoking process and the caller. -/
  depth : Nat
  /-- Whether the caller leads its process group. -/
  leader : Bool
  fds : List Int
  mask : Nat
  handled : List Int
  cwd : String

/-- The directory a path lies in; the root is its own parent. -/
def parentOf (p : String) : String :=
  match ((p.toList.reverse.dropWhile (fun c => c.toNat ≠ 47)).drop 1).reverse with
  | [] => "/"
  | c :: cs => String.mk (c :: cs)

namespace World

/-- The object at a path. -/
def find (w : World) (p : String) : Option Inode :=
  (w.files.find? (fun e => e.1 = p)).map (fun e => e.2)

/-- Place an object at a path. -/
def put (w : World) (p : String) (i : Inode) : World :=
  { w with files := (p, i) :: w.files.filter (fun e => e.1 ≠ p) }

/-- Drop the object at a path. -/
def erase (w : World) (p : String) : World :=
  { w with files := w.files.filter (fun e => e.1 ≠ p) }

/-- Whether the caller has write permission on an object. -/
def mayWrite (w : World) (i : Inode) : Bool :=
  if w.euid = 0 then true
  else if w.euid = i.st_uid then (i.st_mode &&& 0o200) ≠ 0
  else if w.egid = i.st_gid then (i.st_mode &&& 0o020) ≠ 0
  else (i.st_mode &&& 0o002) ≠ 0

/-- Whether the caller has read permission on an object. -/
def mayRead (w : World) (i : Inode) : Bool :=
  if w.euid = 0 then true
  else if w.euid = i.st_uid then (i.st_mode &&& 0o400) ≠ 0
  else if w.egid = i.st_gid then (i.st_mode &&& 0o040) ≠ 0
  else (i.st_mode &&& 0o004) ≠ 0

/-- Whether the caller may add or delete the entry `p`: its parent exists, is
a directory, and is writable. -/
def mayEnter (w : World) (p : String) : Bool :=
  match w.find (parentOf p) with
  | none => false
  | some d => (d.st_mode &&& S_IFMT) = S_IFDIR && w.mayWrite d

/-- Whether something lies in directory `p`. -/
def hasChild (w : World) (p : String) : Bool :=
  w.files.any (fun e => e.1 ≠ p && parentOf e.1 = p)

/-- The call `stat`: mode, owner and group of the object at the path. -/
def stat (p : String) (w : World) : Option StatInfo :=
  (w.find p).map (fun i => { st_mode := i.st_mode, st_uid := i.st_uid, st_gid := i.st_gid })

/-- The call `mkdir`: the path must be free and its parent an existing,
writable directory; the new directory belongs to the caller and gets the mode
without the bits of the file-creation mask. -/
def mkdir (p : String) (m : Nat) (w : World) : Int × World :=
  if (w.find p).isNone && w.mayEnter p then
    (0, w.put p
      { st_mode := S_IFDIR ||| ((m ^^^ (m &&& w.mask)) &&& 0o777),
        st_uid := w.euid, st_gid := w.egid, text := [] })
  else (-1, w)

/-- The call `chown`: the id `NO_ID` keeps the owner, or the group, as it is.
Root may set any ids; the owner of the object may keep its owner and set the
group to its own group. -/
def chown (p : String) (u g : Nat) (w : World) : Int × World :=
  match w.find p with
  | none => (-1, w)
  | some i =>
    if w.euid = 0 ∨
        (w.euid = i.st_uid ∧ (u = NO_ID ∨ u = i.st_uid) ∧
          (g = NO_ID ∨ g = i.st_gid ∨ g = w.egid)) then
      (0, w.put p
        { i with st_uid := if u = NO_ID then i.st_uid else u,
                 st_gid := if g = NO_ID then i.st_gid else g })
    else (-1, w)

/-- The text read through an input stream opened on the path, which must be
a readable regular file. -/
def slurp (p : String) (w : World) : Option (List Char) :=
  match w.find p with
  | none => none
  | some i => if (i.st_mode &&& S_IFMT) = S_IFREG && w.mayRead i then some i.text else none

/-- The call `std::remove`: deletes a file, or a directory that is empty, from
a writable parent directory. -/
def remove (p : String) (w : World) : Int × World :=
  match w.find p with
  | none => (-1, w)
  | some i =>
    if w.mayEnter p && !((i.st_mode &&& S_IFMT) = S_IFDIR && w.hasChild p) then (0, w.erase p)
    else (-1, w)

/-- Whether the calling process is running. -/
def alive (w : World) : Bool :=
  w.procs.any (fun q => q.pid = w.self && !q.zombie)

/-- Process group of the caller (`-1` if it is not among the processes). -/
def selfPgid (w : World) : Int :=
  match w.procs.find? (fun q => q.pid = w.self) with
  | some q => q.pgid
  | none => -1

/-- Whether `kill(pid, sig)` addresses process `q`: the process `pid`, the
caller's group for 0, every process but the caller and process 1 for -1, the
group `-pid` below that. -/
def addressed (w : World) (pid : Int) (q : Proc) : Bool :=
  if pid > 0 then q.pid = pid
  else if pid = 0 then q.pgid = w.selfPgid
  else if pid = -1 then q.pid ≠ w.self && q.pid ≠ 1
  else q.pgid = -pid

/-- Whether the caller is permitted to signal process `q`: it is root, or runs
as the same user. -/
def permitted (w : World) (q : Proc) : Bool :=
  w.euid = 0 || w.euid = q.uid

/-- Whether a running process `q` keeps running when it gets signal `sig`;
of the signals the program sends, 0 tests only, SIGKILL always terminates and
SIGTERM terminates unless ignored. -/
def survives (sig : Int) (q : Proc) : Bool :=
  if sig = SIGKILL then false
  else if sig = SIGTERM then q.ignoresTerm
  else true

/-- The call `kill`: fails when it addresses no process that the caller may
signal; otherwise every such process that is running and does not survive the
signal terminates, and stays among the processes until its parent collects
it. -/
def kill (pid sig : Int) (w : World) : Int × World :=
  if w.procs.any (fun q => w.addressed pid q && w.permitted q) then
    (0, { w with
          procs := w.procs.map (fun q =>
            if w.addressed pid q && w.permitted q && !survives sig q then
              { q with zombie := true }
            else q) })
  else (-1, w)

/-- The call `getpgid`; process id 0 stands for the caller. -/
def getpgid (pid : Int) (w : World) : Int :=
  if pid = 0 then w.selfPgid
  else
    match w.procs.find? (fun q => q.pid = pid) with
    | some q => q.pgid
    | none => -1

/-- The call `killpg`, which is `kill(-pgid, sig)` for `pgid ≥ 0`. -/
def killpg (pgid sig : Int) (w : World) : Int × World :=
  if pgid < 0 then (-1, w) else kill (-pgid) sig w

/-- What one act of the other processes does to the process table: a process
exits, a parent collects a terminated child, a process changes its group. -/
def act (ps : List Proc) : EnvAct → List Proc
  | EnvAct.idle => ps
  | EnvAct.exits pid => ps.map (fun q => if q.pid = pid then { q with zombie := true } else q)
  | EnvAct.reaps pid => ps.filter (fun q => !(q.pid = pid && q.zombie))
  | EnvAct.setpgid pid g =>
    ps.map (fun q => if q.pid = pid && !q.zombie then { q with pgid := g } else q)

/-- The call `sleep(n)`: the other processes perform their next `n` acts. -/
def sleep (n : Nat) (w : World) : World :=
  { w with procs := (w.script.take n).foldl act w.procs, script := w.script.drop n }

/-- The call `setuid`: root may become any user. -/
def setuid (u : Nat) (w : World) : Int × World :=
  if w.euid = 0 ∨ u = w.euid then
    (0, { w with
          euid := u,
          procs := w.procs.map (fun q => if q.pid = w.self then { q with uid := u } else q) })
  else (-1, w)

/-- The call `fork`, followed into the child when it returns 0. -/
def fork (w : World) : Int × World :=
  match w.forks with
  | [] => (-1, w)
  | r :: later =>
    if r = 0 then
      (0, { w with
            forks := later, self := w.nextPid, nextPid := w.nextPid + 1,
            depth := w.depth + 1, leader := false,
            procs := w.procs ++
              [{ pid := w.nextPid, pgid := w.selfPgid, uid := w.euid, ignoresTerm := false,
                 zombie := false }] })
    else (r, { w with forks := later })

/-- The call `setsid`: fails for a process group leader. -/
def setsid (w : World) : Int × World :=
  if w.leader then (-1, w)
  else
    (w.self, { w with
      leader := true,
      procs := w.procs.map (fun q => if q.pid = w.self then { q with pgid := w.self } else q) })

def umask (m : Nat) (w : World) : World := { w with mask := m }

def close (fd : Int) (w : World) : World := { w with fds := w.fds.filter (fun d => d ≠ fd) }

def signal (sig : Int) (w : World) : World := { w with handled := sig :: w.handled }

/-- Opening an output stream on the path: creates the file in a writable
parent directory, or empties an existing writable regular file. -/
def creat (p : String) (w : World) : Bool × World :=
  match w.find p with
  | none =>
    if w.mayEnter p then
      (true, w.put p
        { st_mode := S_IFREG ||| ((0o666 ^^^ (0o666 &&& w.mask)) &&& 0o777),
          st_uid := w.euid, st_gid := w.egid, text := [] })
    else (false, w)
  | some i =>
    if (i.st_mode &&& S_IFMT) = S_IFREG && w.mayWrite i then (true, w.put p { i with text := [] })
    else (false, w)

/-- Writing text to the stream opened on the path. -/
def append (p : String) (t : List Char) (w : World) : World :=
  match w.find p with
  | none => w
  | some i => w.put p { i with text := i.text ++ t }

/-- The call `chdir`. -/
def chdir (p : String) (w : World) : Int × World :=
  match w.find p with
  | none => (-1, w)
  | some i => if (i.st_mode &&& S_IFMT) = S_IFDIR then (0, { w with cwd := p }) else (-1, w)

end World

/-- The concrete kernel. -/
def posix : OS World where
  stat := World.stat
  mkdir := World.mkdir
  chown := World.chown
  slurp := World.slurp
  kill := World.kill
  getpgid := World.getpgid
  sleep := World.sleep
  killpg := World.killpg
  remove := World.remove
  setuid := World.setuid
  fork := World.fork
  setsid := World.setsid
  umask := World.umask
  close := World.close
  signal := World.signal
  getpid := fun w => w.self
  creat := World.creat
  append := World.append
  chdir := World.chdir
  alive := World.alive

/-! ## Derived notions used to state the theorems -/

section Derived

variable {σ : Type}

/-- The loop of `killProcess` again, by recursion on the number of rounds
still allowed (`killtimeout - seconds`); `killLoop_unroll` shows it equal to
`LTorrent.killLoop`.  It exists so that runs on explicit inputs can be
evaluated. -/
def killIter (K : OS σ) (pgid : Int) : Nat → St σ → Option Outcome × St σ
  | 0, s => (none, s)
  | left + 1, s =>
    let k := sys_killpg K pgid SIGTERM (sys_sleep K 1 s)
    match k.1 with
    | none => (some (Outcome.killed SIGTERM), k.2)
    | some r =>
      if r ≠ 0 then (some (Outcome.returned EXIT_SUCCESS), k.2)
      else killIter K pgid left k.2

/-- The process id `killProcess` holds after `pidfile >> pid`. -/
def resolvedPid (K : OS σ) (opts : OptionParser) (uninit : Int) (s : St σ) : Int :=
  pidAfterExtract (K.slurp opts.pidFile s.os) uninit

/-- Kernel state when `killProcess` enters its loop: the one left by the
probe `kill(pid, 0)`. -/
def entryState (K : OS σ) (opts : OptionParser) (uninit : Int) (s : St σ) : σ :=
  (K.kill (resolvedPid K opts uninit s) 0 s.os).2

/-- The process group id `killProcess` gets from `getpgid(pid)`, called after
the probe `kill(pid, 0)`. -/
def resolvedPgid (K : OS σ) (opts : OptionParser) (uninit : Int) (s : St σ) : Int :=
  K.getpgid (resolvedPid K opts uninit s) (entryState K opts uninit s)

/-- What the kernel makes of one round of the loop, `sleep(1)` and then
SIGTERM to the group: the delivery status and the state left. -/
def roundCall (K : OS σ) (pgid : Int) (w : σ) : Int × σ :=
  K.killpg pgid SIGTERM (K.sleep 1 w)

/-- Kernel state after `k` rounds of the loop. -/
def roundsState (K : OS σ) (pgid : Int) : Nat → σ → σ
  | 0, w => w
  | k + 1, w => roundsState K pgid k (roundCall K pgid w).2

/-- What the kernel makes of the SIGKILL that `killProcess` sends after
`killtimeout` rounds: the delivery status and the state left. -/
def killCall (K : OS σ) (opts : OptionParser) (uninit : Int) (s : St σ) : Int × σ :=
  K.killpg (resolvedPgid K opts uninit s) SIGKILL
    (roundsState K (resolvedPgid K opts uninit s) opts.killtimeout.toNat
      (entryState K opts uninit s))

/-- What the kernel makes of the removal of the PID file that follows the
SIGKILL: the value returned and the state left. -/
def removeCall (K : OS σ) (opts : OptionParser) (uninit : Int) (s : St σ) : Int × σ :=
  K.remove opts.pidFile (killCall K opts uninit s).2

/-- The events of `killProcess` before its loop when the PID-file checks and
the probe pass: `stat`, opening the file, the probe, `getpgid`. -/
def prologue (K : OS σ) (opts : OptionParser) (uninit : Int) (s : St σ) : List Event :=
  [Event.stat opts.pidFile true,
   Event.ifstream opts.pidFile (K.slurp opts.pidFile s.os).isSome,
   Event.kill (resolvedPid K opts uninit s) 0 0,
   Event.getpgid (resolvedPid K opts uninit s) (resolvedPgid K opts uninit s)]

/-- The events a call added: the trace after it, without the trace before. -/
def added (before after : St σ) : List Event :=
  after.trace.drop before.trace.length

end Derived

/-! ## Explicit inputs -/

def pidPath : String := "/var/run/luna/ltorrent.pid"
def logPath : String := "/var/log/luna"
def runPath : String := "/var/run/luna"

/-- A configuration with the given kill timeout, for the account 991:991. -/
def optsOf (killtimeout : Int) : OptionParser :=
  { homeDir := "/", logDir := logPath, pidDir := runPath, pidFile := pidPath,
    user := "luna", pw_uid := 991, pw_gid := 991, daemonize := true,
    killtimeout := killtimeout }

/-- The same configuration with `(uid_t)-1` and `(gid_t)-1` as ids. -/
def optsNoId : OptionParser :=
  { optsOf 3 with pw_uid := NO_ID, pw_gid := NO_ID }

/-- A regular file owned by root with the given text. -/
def regularFile (text : String) : Inode :=
  { st_mode := 0o100644, st_uid := 0, st_gid := 0, text := text.toList }

/-- A directory owned by root. -/
def rootDir : Inode :=
  { st_mode := 0o040755, st_uid := 0, st_gid := 0, text := [] }

/-- A directory of the account 991:991, as `createDirs` leaves it. -/
def lunaDir : Inode :=
  { st_mode := 0o040750, st_uid := 991, st_gid := 991, text := [] }

/-- The directories `/`, `/var`, `/var/log` and `/var/run`. -/
def baseTree : List (String × Inode) :=
  [("/", rootDir), ("/var", rootDir), ("/var/log", rootDir), ("/var/run", rootDir)]

/-- The base directories with the log and PID directories and a PID file of
the given text. -/
def treeWithPidFile (text : String) : List (String × Inode) :=
  baseTree ++ [(logPath, lunaDir), (runPath, lunaDir), (pidPath, regularFile text)]

/-- The base directories only; the caller is process 100, alone in group
100, running as root with descriptors 0, 1 and 2 open. -/
def bareWorld : World :=
  { files := baseTree,
    procs := [{ pid := 100, pgid := 100, uid := 0, ignoresTerm := false, zombie := false }],
    script := [], self := 100, euid := 0, egid := 0, forks := [], nextPid := 5000,
    depth := 0, leader := true, fds := [0, 1, 2], mask := 0o022, handled := [], cwd := "/" }

/-- A PID file naming process 4242, which leads group 4242 and ignores
SIGTERM. -/
def stubbornWorld : World :=
  { bareWorld with
    files := treeWithPidFile "4242\n"
    procs := [{ pid := 100, pgid := 100, uid := 0, ignoresTerm := false, zombie := false },
              { pid := 4242, pgid := 4242, uid := 991, ignoresTerm := true, zombie := false }] }

/-- A PID file naming process 4242, which ignores SIGTERM; it and the caller
were started by the same script, process 90, and share its process group. -/
def sharedGroupWorld : World :=
  { bareWorld with
    files := treeWithPidFile "4242\n"
    procs := [{ pid := 90, pgid := 90, uid := 0, ignoresTerm := false, zombie := false },
              { pid := 100, pgid := 90, uid := 0, ignoresTerm := false, zombie := false },
              { pid := 4242, pgid := 90, uid := 991, ignoresTerm := true, zombie := false }]
    leader := false }

/-- A PID file naming process 4242, a member of group 4200 that moves to a
group of its own during the next second. -/
def regroupWorld : World :=
  { bareWorld with
    files := treeWithPidFile "4242\n"
    procs := [{ pid := 100, pgid := 100, uid := 0, ignoresTerm := false, zombie := false },
              { pid := 4242, pgid := 4200, uid := 991, ignoresTerm := false, zombie := false }]
    script := [EnvAct.setpgid 4242 4242] }

/-- A PID file whose text is not a number. -/
def junkWorld : World :=
  { bareWorld with files := treeWithPidFile "junk" }

/-- The PID directory path is taken by a regular file; the log directory does
not exist. -/
def conflictWorld : World :=
  { bareWorld with files := baseTree ++ [(runPath, regularFile "")] }

/-- The log directory path is taken by a regular file. -/
def logConflictWorld : World :=
  { bareWorld with files := baseTree ++ [(logPath, regularFile "")] }

/-- The caller was started from a shell (it does not lead its group) and the
coming `fork` returns in the child. -/
def forkWorld : World :=
  { bareWorld with forks := [0], leader := false }

open LTorrent

/-! ## Lemmas on `killProcess` -/

section Lemmas
variable {σ : Type}

/-- The loop of `killProcess` and its unrolling by rounds agree. -/
theorem killLoop_eq_killIter (K : OS σ) (pgid killtimeout : Int) :
    ∀ (n : Nat) (seconds : Int) (s : St σ), (killtimeout - seconds).toNat = n →
      killLoop K pgid killtimeout seconds s = killIter K pgid n s := by
  intro n
  induction n with
  | zero =>
    intro seconds s h
    rw [killLoop, killIter, if_neg (by omega)]
  | succ n ih =>
    intro seconds s h
    rw [killLoop, killIter, if_pos (by omega)]
    simp only []
    rw [ih (seconds + 1) _ (by omega)]

/-- The loop of `killProcess` runs `killtimeout - seconds` rounds at most. -/
theorem killLoop_unroll (K : OS σ) (pgid killtimeout seconds : Int) (s : St σ) :
    killLoop K pgid killtimeout seconds s =
      killIter K pgid (killtimeout - seconds).toNat s :=
  killLoop_eq_killIter K pgid killtimeout _ seconds s rfl

/-- One delivered round in front of `k` delivered rounds is `k + 1` rounds. -/
theorem rounds_succ (pgid : Int) (k : Nat) (pre : List Event) :
    pre ++ [Event.sleep 1, Event.killpg pgid SIGTERM 0] ++
        (List.replicate k [Event.sleep 1, Event.killpg pgid SIGTERM 0]).flatten =
      pre ++ (List.replicate (k + 1) [Event.sleep 1, Event.killpg pgid SIGTERM 0]).flatten := by
  simp [List.replicate_succ]

/-- The three ways the loop ends: it falls through after `n` delivered
rounds; it returns success at the first round whose delivery fails; or the
SIGTERM of some round terminates the caller.  Each comes with the events
added and the kernel state left. -/
theorem killIter_spec (K : OS σ) (pgid : Int) :
    ∀ (n : Nat) (s : St σ),
      ((killIter K pgid n s).1 = none ∧
        (killIter K pgid n s).2.trace =
          s.trace ++ (List.replicate n [Event.sleep 1, Event.killpg pgid SIGTERM 0]).flatten ∧
        (killIter K pgid n s).2.os = roundsState K pgid n s.os ∧
        (∀ k, k < n → (roundCall K pgid (roundsState K pgid k s.os)).1 = 0 ∧
          K.alive (roundCall K pgid (roundsState K pgid k s.os)).2 = true)) ∨
      (∃ (k : Nat), k < n ∧
        (roundCall K pgid (roundsState K pgid k s.os)).1 ≠ 0 ∧
        K.alive (roundCall K pgid (roundsState K pgid k s.os)).2 = true ∧
        (killIter K pgid n s).1 = some (Outcome.returned EXIT_SUCCESS) ∧
        (killIter K pgid n s).2.trace =
          s.trace ++ (List.replicate k [Event.sleep 1, Event.killpg pgid SIGTERM 0]).flatten ++
            [Event.sleep 1,
              Event.killpg pgid SIGTERM (roundCall K pgid (roundsState K pgid k s.os)).1] ∧
        (killIter K pgid n s).2.os = (roundCall K pgid (roundsState K pgid k s.os)).2) ∨
      (∃ (k : Nat), k < n ∧
        K.alive (roundCall K pgid (roundsState K pgid k s.os)).2 = false ∧
        (killIter K pgid n s).1 = some (Outcome.killed SIGTERM) ∧
        (killIter K pgid n s).2.trace =
          s.trace ++ (List.replicate k [Event.sleep 1, Event.killpg pgid SIGTERM 0]).flatten ++
            [Event.sleep 1,
              Event.killpg pgid SIGTERM (roundCall K pgid (roundsState K pgid k s.os)).1] ∧
        (killIter K pgid n s).2.os = (roundCall K pgid (roundsState K pgid k s.os)).2) := by
  intro n
  induction n with
  | zero =>
    intro s
    left
    simp [killIter, roundsState]
  | succ n ih =>
    intro s
    have hos : (sys_killpg K pgid SIGTERM (sys_sleep K 1 s)).2.os = (roundCall K pgid s.os).2 := by
      simp [sys_killpg, sys_sleep, emit, roundCall]
    have htr : (sys_killpg K pgid SIGTERM (sys_sleep K 1 s)).2.trace =
        s.trace ++ [Event.sleep 1, Event.killpg pgid SIGTERM (roundCall K pgid s.os).1] := by
      simp [sys_killpg, sys_sleep, emit, roundCall]
    by_cases hal : K.alive (roundCall K pgid s.os).2 = true
    · have h1 : (sys_killpg K pgid SIGTERM (sys_sleep K 1 s)).1 =
          some (roundCall K pgid s.os).1 := by
        simp only [roundCall] at hal
        simp [sys_killpg, sys_sleep, emit, roundCall, hal]
      by_cases hr : (roundCall K pgid s.os).1 = 0
      · have hstep : killIter K pgid (n + 1) s =
            killIter K pgid n (sys_killpg K pgid SIGTERM (sys_sleep K 1 s)).2 := by
          rw [killIter]
          simp only [h1, hr]
          simp
        rw [hstep]
        rw [hr] at htr
        rcases ih (sys_killpg K pgid SIGTERM (sys_sleep K 1 s)).2 with
          ⟨a1, a2, a3, a4⟩ | ⟨k, hk, b1, b2, b3, b4, b5⟩ | ⟨k, hk, c1, c2, c3, c4⟩
        · left
          refine ⟨a1, ?_, ?_, ?_⟩
          · rw [a2, htr, rounds_succ]
          · rw [a3, hos]
            rfl
          · intro k hk
            cases k with
            | zero => exact ⟨hr, hal⟩
            | succ k =>
              have := a4 k (by omega)
              rw [hos] at this
              exact this
        · right
          left
          rw [hos] at b1 b2 b4 b5
          refine ⟨k + 1, by omega, b1, b2, b3, ?_, b5⟩
          rw [b4, htr, rounds_succ]
          rfl
        · right
          right
          rw [hos] at c1 c3 c4
          refine ⟨k + 1, by omega, c1, c2, ?_, c4⟩
          rw [c3, htr, rounds_succ]
          rfl
      · right
        left
        have hstep : killIter K pgid (n + 1) s =
            (some (Outcome.returned EXIT_SUCCESS),
              (sys_killpg K pgid SIGTERM (sys_sleep K 1 s)).2) := by
          rw [killIter]
          simp only [h1]
          simp [hr]
        rw [hstep]
        refine ⟨0, by omega, hr, hal, rfl, ?_, hos⟩
        simpa [roundsState] using htr
    · right
      right
      have hal2 : K.alive (roundCall K pgid s.os).2 = false := by
        simpa using hal
      have h1 : (sys_killpg K pgid SIGTERM (sys_sleep K 1 s)).1 = none := by
        simp only [roundCall] at hal2
        simp [sys_killpg, sys_sleep, emit, hal2]
      have hstep : killIter K pgid (n + 1) s =
          (some (Outcome.killed SIGTERM), (sys_killpg K pgid SIGTERM (sys_sleep K 1 s)).2) := by
        rw [killIter]
        simp only [h1]
      rw [hstep]
      refine ⟨0, by omega, hal2, rfl, ?_, hos⟩
      simpa [roundsState] using htr

/-- If the trace grew by `evs`, the added events are `evs`. -/
theorem added_of_trace (s t : St σ) (evs : List Event) (h : t.trace = s.trace ++ evs) :
    added s t = evs := by
  simp [added, h]

/-- The four ways `killProcess` ends once its checks have passed: return of
success at the first failed delivery, the caller terminated by its own
SIGTERM, the full escalation with SIGKILL and removal, or the caller
terminated by its own SIGKILL.  Each comes with the outcome, the events added
and the kernel state left. -/
theorem killProcess_spec (K : OS σ) (opts : OptionParser) (uninit : Int) (s : St σ)
    (info : StatInfo) (hstat : K.stat opts.pidFile s.os = some info)
    (hreg : (info.st_mode &&& S_IFMT) = S_IFREG)
    (hprobe : (K.kill (resolvedPid K opts uninit s) 0 s.os).1 = 0) :
    (∃ (k : Nat), k < opts.killtimeout.toNat ∧
      (roundCall K (resolvedPgid K opts uninit s)
        (roundsState K (resolvedPgid K opts uninit s) k (entryState K opts uninit s))).1 ≠ 0 ∧
      (killProcess K opts uninit s).1 = Outcome.returned EXIT_SUCCESS ∧
      added s (killProcess K opts uninit s).2 =
        prologue K opts uninit s ++
          (List.replicate k [Event.sleep 1,
            Event.killpg (resolvedPgid K opts uninit s) SIGTERM 0]).flatten ++
          [Event.sleep 1, Event.killpg (resolvedPgid K opts uninit s) SIGTERM
            (roundCall K (resolvedPgid K opts uninit s)
              (roundsState K (resolvedPgid K opts uninit s) k
                (entryState K opts uninit s))).1] ∧
      (killProcess K opts uninit s).2.os =
        (roundCall K (resolvedPgid K opts uninit s)
          (roundsState K (resolvedPgid K opts uninit s) k (entryState K opts uninit s))).2) ∨
    (∃ (k : Nat), k < opts.killtimeout.toNat ∧
      K.alive (roundCall K (resolvedPgid K opts uninit s)
        (roundsState K (resolvedPgid K opts uninit s) k
          (entryState K opts uninit s))).2 = false ∧
      (killProcess K opts uninit s).1 = Outcome.killed SIGTERM ∧
      added s (killProcess K opts uninit s).2 =
        prologue K opts uninit s ++
          (List.replicate k [Event.sleep 1,
            Event.killpg (resolvedPgid K opts uninit s) SIGTERM 0]).flatten ++
          [Event.sleep 1, Event.killpg (resolvedPgid K opts uninit s) SIGTERM
            (roundCall K (resolvedPgid K opts uninit s)
              (roundsState K (resolvedPgid K opts uninit s) k
                (entryState K opts uninit s))).1] ∧
      (killProcess K opts uninit s).2.os =
        (roundCall K (resolvedPgid K opts uninit s)
          (roundsState K (resolvedPgid K opts uninit s) k (entryState K opts uninit s))).2) ∨
    (K.alive (killCall K opts uninit s).2 = true ∧
      (killProcess K opts uninit s).1 =
        Outcome.returned
          (if (removeCall K opts uninit s).1 ≠ 0 then EXIT_FAILURE else EXIT_SUCCESS) ∧
      added s (killProcess K opts uninit s).2 =
        prologue K opts uninit s ++
          (List.replicate opts.killtimeout.toNat [Event.sleep 1,
            Event.killpg (resolvedPgid K opts uninit s) SIGTERM 0]).flatten ++
          [Event.cerr,
            Event.killpg (resolvedPgid K opts uninit s) SIGKILL (killCall K opts uninit s).1,
            Event.remove opts.pidFile (removeCall K opts uninit s).1] ++
          (if (removeCall K opts uninit s).1 ≠ 0 then [Event.cerr] else []) ∧
      (killProcess K opts uninit s).2.os = (removeCall K opts uninit s).2) ∨
    (K.alive (killCall K opts uninit s).2 = false ∧
      (killProcess K opts uninit s).1 = Outcome.killed SIGKILL ∧
      added s (killProcess K opts uninit s).2 =
        prologue K opts uninit s ++
          (List.replicate opts.killtimeout.toNat [Event.sleep 1,
            Event.killpg (resolvedPgid K opts uninit s) SIGTERM 0]).flatten ++
          [Event.cerr,
            Event.killpg (resolvedPgid K opts uninit s) SIGKILL (killCall K opts uninit s).1] ∧
      (killProcess K opts uninit s).2.os = (killCall K opts uninit s).2) := by
  have e1 : (sys_stat K opts.pidFile s).1 = some info := by simp [sys_stat, hstat]
  unfold killProcess
  simp only [e1, killLoop_unroll]
  rw [if_neg (by simpa using hreg)]
  have e2 : (sys_ifstream K opts.pidFile (sys_stat K opts.pidFile s).2).1 =
      K.slurp opts.pidFile s.os := by simp [sys_ifstream, sys_stat, emit]
  simp only [e2]
  have e3 : pidAfterExtract (K.slurp opts.pidFile s.os) uninit = resolvedPid K opts uninit s := rfl
  simp only [e3]
  have e4 : (sys_kill K (resolvedPid K opts uninit s) 0
      (sys_ifstream K opts.pidFile (sys_stat K opts.pidFile s).2).2).1 = 0 := by
    simpa [sys_kill, sys_ifstream, sys_stat, emit] using hprobe
  rw [if_neg (by simp [e4])]
  have e5 : (sys_getpgid K (resolvedPid K opts uninit s) (sys_kill K (resolvedPid K opts uninit s) 0
      (sys_ifstream K opts.pidFile (sys_stat K opts.pidFile s).2).2).2).1 =
      resolvedPgid K opts uninit s := by
    simp [sys_getpgid, sys_kill, sys_ifstream, sys_stat, emit, resolvedPgid, entryState]
  simp only [e5]
  have e6 : (sys_getpgid K (resolvedPid K opts uninit s) (sys_kill K (resolvedPid K opts uninit s) 0
      (sys_ifstream K opts.pidFile (sys_stat K opts.pidFile s).2).2).2).2.trace =
      s.trace ++ prologue K opts uninit s := by
    simp [sys_getpgid, sys_kill, sys_ifstream, sys_stat, emit, resolvedPgid, entryState, prologue,
      hstat, hprobe]
  have e7 : (sys_getpgid K (resolvedPid K opts uninit s) (sys_kill K (resolvedPid K opts uninit s) 0
      (sys_ifstream K opts.pidFile (sys_stat K opts.pidFile s).2).2).2).2.os =
      entryState K opts uninit s := by
    simp [sys_getpgid, sys_kill, sys_ifstream, sys_stat, emit, entryState]
  generalize (sys_getpgid K (resolvedPid K opts uninit s) (sys_kill K (resolvedPid K opts uninit s) 0
      (sys_ifstream K opts.pidFile (sys_stat K opts.pidFile s).2).2).2).2 = gs at e6 e7 ⊢
  have hn : (opts.killtimeout - 0).toNat = opts.killtimeout.toNat := by simp
  rw [hn]
  rcases killIter_spec K (resolvedPgid K opts uninit s) opts.killtimeout.toNat gs with
    ⟨a1, a2, a3, _⟩ | ⟨k, hk, b1, _, b3, b4, b5⟩ | ⟨k, hk, c1, c2, c3, c4⟩
  · generalize killIter K (resolvedPgid K opts uninit s) opts.killtimeout.toNat gs = lp
      at a1 a2 a3 ⊢
    rw [e7] at a3
    simp only [a1]
    have hkc : K.killpg (resolvedPgid K opts uninit s) SIGKILL lp.2.os =
        killCall K opts uninit s := by
      rw [a3]
      rfl
    by_cases hal : K.alive (killCall K opts uninit s).2 = true
    · right
      right
      left
      have h1 : (sys_killpg K (resolvedPgid K opts uninit s) SIGKILL (cerr lp.2)).1 =
          some (killCall K opts uninit s).1 := by
        simp [sys_killpg, cerr, emit, hkc, hal]
      have hos : (sys_killpg K (resolvedPgid K opts uninit s) SIGKILL (cerr lp.2)).2.os =
          (killCall K opts uninit s).2 := by
        simp [sys_killpg, cerr, emit, hkc]
      have htr : (sys_killpg K (resolvedPgid K opts uninit s) SIGKILL (cerr lp.2)).2.trace =
          s.trace ++ (prologue K opts uninit s ++
            (List.replicate opts.killtimeout.toNat [Event.sleep 1,
              Event.killpg (resolvedPgid K opts uninit s) SIGTERM 0]).flatten ++
            [Event.cerr, Event.killpg (resolvedPgid K opts uninit s) SIGKILL
              (killCall K opts uninit s).1]) := by
        simp [sys_killpg, cerr, emit, hkc, a2, e6]
      simp only [h1, removeCall]
      generalize (sys_killpg K (resolvedPgid K opts uninit s) SIGKILL (cerr lp.2)).2 = ks
        at hos htr ⊢
      refine ⟨hal, ?_, ?_, ?_⟩
      · by_cases hrm : (K.remove opts.pidFile (killCall K opts uninit s).2).1 = 0
        · simp [sys_remove, hos, hrm]
        · simp [sys_remove, hos, hrm]
      · apply added_of_trace
        by_cases hrm : (K.remove opts.pidFile (killCall K opts uninit s).2).1 = 0
        · simp [sys_remove, cerr, emit, hos, htr, hrm]
        · simp [sys_remove, cerr, emit, hos, htr, hrm]
      · by_cases hrm : (K.remove opts.pidFile (killCall K opts uninit s).2).1 = 0
        · simp [sys_remove, cerr, emit, hos, hrm]
        · simp [sys_remove, cerr, emit, hos, hrm]
    · right
      right
      right
      have hal2 : K.alive (killCall K opts uninit s).2 = false := by simpa using hal
      have h1 : (sys_killpg K (resolvedPgid K opts uninit s) SIGKILL (cerr lp.2)).1 = none := by
        simp [sys_killpg, cerr, emit, hkc, hal2]
      simp only [h1]
      refine ⟨hal2, trivial, ?_, ?_⟩
      · apply added_of_trace
        simp [sys_killpg, cerr, emit, hkc, a2, e6]
      · simp [sys_killpg, cerr, emit, hkc]
  · left
    rw [e7] at b1 b4 b5
    refine ⟨k, hk, b1, ?_, ?_, ?_⟩
    · simp only [b3]
    · simp only [b3]
      apply added_of_trace
      rw [b4, e6]
      simp only [List.append_assoc]
    · simp only [b3]
      exact b5
  · right
    left
    rw [e7] at c1 c3 c4
    refine ⟨k, hk, c1, ?_, ?_, ?_⟩
    · simp only [c2]
    · simp only [c2]
      apply added_of_trace
      rw [c3, e6]
      simp only [List.append_assoc]
    · simp only [c2]
      exact c4

end Lemmas

/-! ## The concrete kernel obeys the file-system laws -/

/-- A mode made of `S_IFDIR` and permission bits has file type `S_IFDIR`. -/
theorem dir_mode_bits (x : Nat) : ((S_IFDIR ||| (x &&& 0o777)) &&& S_IFMT) = S_IFDIR := by
  rw [Nat.and_distrib_right, Nat.and_assoc]
  have h1 : (0o777 &&& S_IFMT) = 0 := by decide
  have h2 : (S_IFDIR &&& S_IFMT) = S_IFDIR := by decide
  rw [h1, h2, Nat.and_zero, Nat.or_zero]

/-- Looking up a path among the entries left after dropping another path. -/
theorem find_filter_other (l : List (String × Inode)) (p q : String) (hq : q ≠ p) :
    (l.filter (fun e => e.1 ≠ p)).find? (fun e => e.1 = q) = l.find? (fun e => e.1 = q) := by
  rw [List.find?_filter]
  congr 1
  funext e
  by_cases h1 : e.1 = q
  · have h2 : e.1 ≠ p := fun h => hq (h1.symm.trans h)
    simp [h1, h2, hq]
  · simp [h1]

/-- A dropped path is not found. -/
theorem find_filter_same (l : List (String × Inode)) (p : String) :
    (l.filter (fun e => e.1 ≠ p)).find? (fun e => e.1 = p) = none := by
  rw [List.find?_filter, List.find?_eq_none]
  intro e _
  by_cases h1 : e.1 = p
  · simp [h1]
  · simp [h1]

theorem World.find_put_same (w : World) (p : String) (i : Inode) :
    (w.put p i).find p = some i := by
  simp [World.find, World.put]

theorem World.find_put_other (w : World) (p q : String) (i : Inode) (hq : q ≠ p) :
    (w.put p i).find q = w.find q := by
  have hpq : ¬ p = q := fun h => hq h.symm
  simp only [World.find, World.put]
  rw [List.find?_cons]
  simp only [hpq, decide_False]
  rw [find_filter_other _ p q hq]

theorem World.find_erase_same (w : World) (p : String) : (w.erase p).find p = none := by
  simp only [World.find, World.erase]
  rw [find_filter_same]
  rfl

/-- The concrete kernel satisfies the file-system laws. -/
theorem posix_laws : FsLaws posix where
  mkdir_dir := by
    intro p m w h
    simp only [posix, World.mkdir] at h ⊢
    split at h
    · rename_i hc
      rw [if_pos hc]
      refine ⟨{ st_mode := S_IFDIR ||| ((m ^^^ (m &&& w.mask)) &&& 0o777),
                st_uid := w.euid, st_gid := w.egid }, ?_, dir_mode_bits (m ^^^ (m &&& w.mask))⟩
      simp [World.stat, World.find_put_same]
    · simp at h
  mkdir_frame := by
    intro p m w q hq
    simp only [posix, World.mkdir]
    split
    · simp [World.stat, World.find_put_other _ p q _ hq]
    · rfl
  chown_owner := by
    intro p u g w _ _ h
    simp only [posix, World.chown] at h ⊢
    cases hf : w.find p with
    | none => simp [hf] at h
    | some i =>
      simp only [hf] at h ⊢
      split at h
      · rename_i hc
        rw [if_pos hc]
        refine ⟨{ st_mode := i.st_mode, st_uid := i.st_uid, st_gid := i.st_gid }, ?_, ?_⟩
        · simp [World.stat, hf]
        · simp [World.stat, World.find_put_same]
      · simp at h
  chown_frame := by
    intro p u g w q hq
    simp only [posix, World.chown]
    split
    · rfl
    · split
      · simp [World.stat, World.find_put_other _ p q _ hq]
      · rfl
  remove_gone := by
    intro p w h
    simp only [posix, World.remove] at h ⊢
    split at h
    · simp at h
    · split at h
      · rename_i i hf hc
        simp only [hf, if_pos hc]
        simp [World.stat, World.find_erase_same]
      · simp at h

/-! ## Claims on `killProcess` -/

section KillClaims
variable {σ : Type}

/-- A `killProcess` that returns success has passed the PID-file checks and
the probe. -/
theorem killProcess_checks (K : OS σ) (opts : OptionParser) (uninit : Int) (s : St σ)
    (hok : (killProcess K opts uninit s).1 = Outcome.returned EXIT_SUCCESS) :
    ∃ info, K.stat opts.pidFile s.os = some info ∧ (info.st_mode &&& S_IFMT) = S_IFREG ∧
      (K.kill (resolvedPid K opts uninit s) 0 s.os).1 = 0 := by
  unfold killProcess at hok
  cases hst : K.stat opts.pidFile s.os with
  | none =>
    simp [sys_stat, hst, EXIT_FAILURE, EXIT_SUCCESS] at hok
  | some info =>
    refine ⟨info, rfl, ?_⟩
    by_cases hreg : (info.st_mode &&& S_IFMT) = S_IFREG
    · refine ⟨hreg, ?_⟩
      by_contra hp
      have e4 : (sys_kill K (pidAfterExtract (sys_ifstream K opts.pidFile
          (sys_stat K opts.pidFile s).2).1 uninit) 0
          (sys_ifstream K opts.pidFile (sys_stat K opts.pidFile s).2).2).1 ≠ 0 := by
        simpa [sys_kill, sys_ifstream, sys_stat, emit, resolvedPid] using hp
      simp [sys_stat, hst, hreg] at hok
      simp [sys_stat, hst] at e4
      simp [e4, EXIT_FAILURE, EXIT_SUCCESS] at hok
    · simp [sys_stat, hst, hreg, EXIT_FAILURE, EXIT_SUCCESS] at hok

/-- C1 (as amended): once the PID-file checks and the liveness probe have
passed, `killProcess` sends SIGTERM to the resolved process group once per
one-second round, and what it does next follows the value `killpg` returns.
Either some round `k + 1 ≤ killtimeout` is the first whose delivery fails
(`killpg` returns non-zero), and the function returns `EXIT_SUCCESS` right
there, every earlier delivery having succeeded; or all `killtimeout`
deliveries succeed and the function goes on to SIGKILL and the removal of the
PID file.  The two remaining cases are those in which a `killpg` call does
not return, because the signal terminated the caller itself: at a SIGTERM
round, or at the SIGKILL.  Each case comes with the outcome, the exact events
added and the kernel state left. -/
theorem killProcess_returns_at_first_failed_sigterm (K : OS σ) (opts : OptionParser)
    (uninit : Int) (s : St σ) (info : StatInfo)
    (hstat : K.stat opts.pidFile s.os = some info)
    (hreg : (info.st_mode &&& S_IFMT) = S_IFREG)
    (hprobe : (K.kill (resolvedPid K opts uninit s) 0 s.os).1 = 0) :
    (∃ (k : Nat), k < opts.killtimeout.toNat ∧
      (roundCall K (resolvedPgid K opts uninit s)
        (roundsState K (resolvedPgid K opts uninit s) k (entryState K opts uninit s))).1 ≠ 0 ∧
      (killProcess K opts uninit s).1 = Outcome.returned EXIT_SUCCESS ∧
      added s (killProcess K opts uninit s).2 =
        prologue K opts uninit s ++
          (List.replicate k [Event.sleep 1,
            Event.killpg (resolvedPgid K opts uninit s) SIGTERM 0]).flatten ++
          [Event.sleep 1, Event.killpg (resolvedPgid K opts uninit s) SIGTERM
            (roundCall K (resolvedPgid K opts uninit s)
              (roundsState K (resolvedPgid K opts uninit s) k
                (entryState K opts uninit s))).1] ∧
      (killProcess K opts uninit s).2.os =
        (roundCall K (resolvedPgid K opts uninit s)
          (roundsState K (resolvedPgid K opts uninit s) k (entryState K opts uninit s))).2) ∨
    (∃ (k : Nat), k < opts.killtimeout.toNat ∧
      K.alive (roundCall K (resolvedPgid K opts uninit s)
        (roundsState K (resolvedPgid K opts uninit s) k
          (entryState K opts uninit s))).2 = false ∧
      (killProcess K opts uninit s).1 = Outcome.killed SIGTERM ∧
      added s (killProcess K opts uninit s).2 =
        prologue K opts uninit s ++
          (List.replicate k [Event.sleep 1,
            Event.killpg (resolvedPgid K opts uninit s) SIGTERM 0]).flatten ++
          [Event.sleep 1, Event.killpg (resolvedPgid K opts uninit s) SIGTERM
            (roundCall K (resolvedPgid K opts uninit s)
              (roundsState K (resolvedPgid K opts uninit s) k
                (entryState K opts uninit s))).1] ∧
      (killProcess K opts uninit s).2.os =
        (roundCall K (resolvedPgid K opts uninit s)
          (roundsState K (resolvedPgid K opts uninit s) k (entryState K opts uninit s))).2) ∨
    (K.alive (killCall K opts uninit s).2 = true ∧
      (killProcess K opts uninit s).1 =
        Outcome.returned
          (if (removeCall K opts uninit s).1 ≠ 0 then EXIT_FAILURE else EXIT_SUCCESS) ∧
      added s (killProcess K opts uninit s).2 =
        prologue K opts uninit s ++
          (List.replicate opts.killtimeout.toNat [Event.sleep 1,
            Event.killpg (resolvedPgid K opts uninit s) SIGTERM 0]).flatten ++
          [Event.cerr,
            Event.killpg (resolvedPgid K opts uninit s) SIGKILL (killCall K opts uninit s).1,
            Event.remove opts.pidFile (removeCall K opts uninit s).1] ++
          (if (removeCall K opts uninit s).1 ≠ 0 then [Event.cerr] else []) ∧
      (killProcess K opts uninit s).2.os = (removeCall K opts uninit s).2) ∨
    (K.alive (killCall K opts uninit s).2 = false ∧
      (killProcess K opts uninit s).1 = Outcome.killed SIGKILL ∧
      added s (killProcess K opts uninit s).2 =
        prologue K opts uninit s ++
          (List.replicate opts.killtimeout.toNat [Event.sleep 1,
            Event.killpg (resolvedPgid K opts uninit s) SIGTERM 0]).flatten ++
          [Event.cerr,
            Event.killpg (resolvedPgid K opts uninit s) SIGKILL (killCall K opts uninit s).1] ∧
      (killProcess K opts uninit s).2.os = (killCall K opts uninit s).2) :=
  killProcess_spec K opts uninit s info hstat hreg hprobe

/-- C1, on an explicit input: process 4242 is alone in group 4200 and leaves
it during the first second, so the first SIGTERM delivery fails and
`killProcess` returns success at once. -/
theorem killProcess_returns_at_first_failed_sigterm_witness :
    (posix.stat (optsOf 5).pidFile (St.start regroupWorld).os =
        some { st_mode := 0o100644, st_uid := 0, st_gid := 0 } ∧
      ((0o100644 : Nat) &&& S_IFMT) = S_IFREG ∧
      (posix.kill (resolvedPid posix (optsOf 5) 0 (St.start regroupWorld)) 0
        (St.start regroupWorld).os).1 = 0) ∧
    ((∃ (k : Nat), k < (optsOf 5).killtimeout.toNat ∧
      (roundCall posix (resolvedPgid posix (optsOf 5) 0 (St.start regroupWorld))
        (roundsState posix (resolvedPgid posix (optsOf 5) 0 (St.start regroupWorld)) k (entryState posix (optsOf 5) 0 (St.start regroupWorld)))).1 ≠ 0 ∧
      (killProcess posix (optsOf 5) 0 (St.start regroupWorld)).1 = Outcome.returned EXIT_SUCCESS ∧
      added (St.start regroupWorld) (killProcess posix (optsOf 5) 0 (St.start regroupWorld)).2 =
        prologue posix (optsOf 5) 0 (St.start regroupWorld) ++
          (List.replicate k [Event.sleep 1,
            Event.killpg (resolvedPgid posix (optsOf 5) 0 (St.start regroupWorld)) SIGTERM 0]).flatten ++
          [Event.sleep 1, Event.killpg (resolvedPgid posix (optsOf 5) 0 (St.start regroupWorld)) SIGTERM
            (roundCall posix (resolvedPgid posix (optsOf 5) 0 (St.start regroupWorld))
              (roundsState posix (resolvedPgid posix (optsOf 5) 0 (St.start regroupWorld)) k
                (entryState posix (optsOf 5) 0 (St.start regroupWorld)))).1] ∧
      (killProcess posix (optsOf 5) 0 (St.start regroupWorld)).2.os =
        (roundCall posix (resolvedPgid posix (optsOf 5) 0 (St.start regroupWorld))
          (roundsState posix (resolvedPgid posix (optsOf 5) 0 (St.start regroupWorld)) k (entryState posix (optsOf 5) 0 (St.start regroupWorld)))).2) ∨
    (∃ (k : Nat), k < (optsOf 5).killtimeout.toNat ∧
      posix.alive (roundCall posix (resolvedPgid posix (optsOf 5) 0 (St.start regroupWorld))
        (roundsState posix (resolvedPgid posix (optsOf 5) 0 (St.start regroupWorld)) k
          (entryState posix (optsOf 5) 0 (St.start regroupWorld)))).2 = false ∧
      (killProcess posix (optsOf 5) 0 (St.start regroupWorld)).1 = Outcome.killed SIGTERM ∧
      added (St.start regroupWorld) (killProcess posix (optsOf 5) 0 (St.start regroupWorld)).2 =
        prologue posix (optsOf 5) 0 (St.start regroupWorld) ++
          (List.replicate k [Event.sleep 1,
            Event.killpg (resolvedPgid posix (optsOf 5) 0 (St.start regroupWorld)) SIGTERM 0]).flatten ++
          [Event.sleep 1, Event.killpg (resolvedPgid posix (optsOf 5) 0 (St.start regroupWorld)) SIGTERM
            (roundCall posix (resolvedPgid posix (optsOf 5) 0 (St.start regroupWorld))
              (roundsState posix (resolvedPgid posix (optsOf 5) 0 (St.start regroupWorld)) k
                (entryState posix (optsOf 5) 0 (St.start regroupWorld)))).1] ∧
      (killProcess posix (optsOf 5) 0 (St.start regroupWorld)).2.os =
        (roundCall posix (resolvedPgid posix (optsOf 5) 0 (St.start regroupWorld))
          (roundsState posix (resolvedPgid posix (optsOf 5) 0 (St.start regroupWorld)) k (entryState posix (optsOf 5) 0 (St.start regroupWorld)))).2) ∨
    (posix.alive (killCall posix (optsOf 5) 0 (St.start regroupWorld)).2 = true ∧
      (killProcess posix (optsOf 5) 0 (St.start regroupWorld)).1 =
        Outcome.returned
          (if (removeCall posix (optsOf 5) 0 (St.start regroupWorld)).1 ≠ 0 then EXIT_FAILURE else EXIT_SUCCESS) ∧
      added (St.start regroupWorld) (killProcess posix (optsOf 5) 0 (St.start regroupWorld)).2 =
        prologue posix (optsOf 5) 0 (St.start regroupWorld) ++
          (List.replicate (optsOf 5).killtimeout.toNat [Event.sleep 1,
            Event.killpg (resolvedPgid posix (optsOf 5) 0 (St.start regroupWorld)) SIGTERM 0]).flatten ++
          [Event.cerr,
            Event.killpg (resolvedPgid posix (optsOf 5) 0 (St.start regroupWorld)) SIGKILL (killCall posix (optsOf 5) 0 (St.start regroupWorld)).1,
            Event.remove (optsOf 5).pidFile (removeCall posix (optsOf 5) 0 (St.start regroupWorld)).1] ++
          (if (removeCall posix (optsOf 5) 0 (St.start regroupWorld)).1 ≠ 0 then [Event.cerr] else []) ∧
      (killProcess posix (optsOf 5) 0 (St.start regroupWorld)).2.os = (removeCall posix (optsOf 5) 0 (St.start regroupWorld)).2) ∨
    (posix.alive (killCall posix (optsOf 5) 0 (St.start regroupWorld)).2 = false ∧
      (killProcess posix (optsOf 5) 0 (St.start regroupWorld)).1 = Outcome.killed SIGKILL ∧
      added (St.start regroupWorld) (killProcess posix (optsOf 5) 0 (St.start regroupWorld)).2 =
        prologue posix (optsOf 5) 0 (St.start regroupWorld) ++
          (List.replicate (optsOf 5).killtimeout.toNat [Event.sleep 1,
            Event.killpg (resolvedPgid posix (optsOf 5) 0 (St.start regroupWorld)) SIGTERM 0]).flatten ++
          [Event.cerr,
            Event.killpg (resolvedPgid posix (optsOf 5) 0 (St.start regroupWorld)) SIGKILL (killCall posix (optsOf 5) 0 (St.start regroupWorld)).1] ∧
      (killProcess posix (optsOf 5) 0 (St.start regroupWorld)).2.os = (killCall posix (optsOf 5) 0 (St.start regroupWorld)).2)) :=
  ⟨⟨by decide, by decide, by decide⟩,
   killProcess_returns_at_first_failed_sigterm posix (optsOf 5) 0 (St.start regroupWorld)
     { st_mode := 0o100644, st_uid := 0, st_gid := 0 } (by decide) (by decide) (by decide)⟩

/-- C1 as stated fails: with `killtimeout = 2` and a target that ignores
SIGTERM, the first delivery succeeds (`killpg` returns 0) and `killProcess`
does not return there; it sleeps and sends SIGTERM again, then SIGKILL. -/
theorem killProcess_goes_on_after_delivered_sigterm :
    (killProcess posix (optsOf 2) 0 (St.start stubbornWorld)).2.trace =
      [Event.stat pidPath true, Event.ifstream pidPath true,
       Event.kill 4242 0 0, Event.getpgid 4242 4242,
       Event.sleep 1, Event.killpg 4242 SIGTERM 0,
       Event.sleep 1, Event.killpg 4242 SIGTERM 0,
       Event.cerr, Event.killpg 4242 SIGKILL 0, Event.remove pidPath 0] := by
  simp only [killProcess, killLoop_unroll]
  decide

/-- The rounds of the loop contain no `remove`. -/
theorem no_remove_in_rounds (pgid : Int) (k : Nat) (p : String) (rr : Int) :
    Event.remove p rr ∉
      (List.replicate k [Event.sleep 1, Event.killpg pgid SIGTERM 0]).flatten := by
  intro h
  rcases List.mem_flatten.mp h with ⟨l, hl, hm⟩
  rw [List.eq_of_mem_replicate hl] at hm
  simp at hm

/-- C2 (as amended): whenever `killProcess` returns success, it either
returned from the escalation loop right after a SIGTERM delivery to the group
failed, having made no call to remove the PID file, or it ran the loop to the
timeout, sent SIGKILL to the group and then removed the PID file with success
as its last action, and then the PID file is absent in the final state. -/
theorem killProcess_success_paths (K : OS σ) (hK : FsLaws K) (opts : OptionParser)
    (uninit : Int) (s : St σ)
    (hok : (killProcess K opts uninit s).1 = Outcome.returned EXIT_SUCCESS) :
    (∃ (k : Nat) (r : Int), r ≠ 0 ∧
      added s (killProcess K opts uninit s).2 =
        prologue K opts uninit s ++
          (List.replicate k [Event.sleep 1,
            Event.killpg (resolvedPgid K opts uninit s) SIGTERM 0]).flatten ++
          [Event.sleep 1, Event.killpg (resolvedPgid K opts uninit s) SIGTERM r] ∧
      ∀ (p : String) (rr : Int),
        Event.remove p rr ∉ added s (killProcess K opts uninit s).2) ∨
    (∃ (rk : Int),
      added s (killProcess K opts uninit s).2 =
        prologue K opts uninit s ++
          (List.replicate opts.killtimeout.toNat [Event.sleep 1,
            Event.killpg (resolvedPgid K opts uninit s) SIGTERM 0]).flatten ++
          [Event.cerr, Event.killpg (resolvedPgid K opts uninit s) SIGKILL rk,
            Event.remove opts.pidFile 0] ∧
      K.stat opts.pidFile (killProcess K opts uninit s).2.os = none) := by
  obtain ⟨info, hstat, hreg, hprobe⟩ := killProcess_checks K opts uninit s hok
  rcases killProcess_spec K opts uninit s info hstat hreg hprobe with
    ⟨k, _, hr, _, h2, _⟩ | ⟨k, _, _, h1, _, _⟩ | ⟨_, h1, h2, h3⟩ | ⟨_, h1, _, _⟩
  · left
    refine ⟨k, _, hr, h2, ?_⟩
    intro p rr hmem
    rw [h2] at hmem
    simp only [List.mem_append] at hmem
    rcases hmem with (hmem | hmem) | hmem
    · simp [prologue] at hmem
    · exact no_remove_in_rounds _ _ _ _ hmem
    · simp at hmem
  · rw [hok] at h1
    cases h1
  · right
    have hrm : (removeCall K opts uninit s).1 = 0 := by
      by_contra hne
      rw [hok, if_pos hne] at h1
      simp [EXIT_SUCCESS, EXIT_FAILURE] at h1
    refine ⟨(killCall K opts uninit s).1, ?_, ?_⟩
    · rw [h2, hrm]
      simp
    · rw [h3]
      exact hK.remove_gone _ _ hrm
  · rw [hok] at h1
    cases h1

/-- C2, on an explicit input: the target ignores SIGTERM, the loop runs to
the timeout, SIGKILL is sent and the PID file is removed. -/
theorem killProcess_success_paths_witness :
    (killProcess posix (optsOf 2) 0 (St.start stubbornWorld)).1 =
      Outcome.returned EXIT_SUCCESS ∧
    ((∃ (k : Nat) (r : Int), r ≠ 0 ∧
      added (St.start stubbornWorld) (killProcess posix (optsOf 2) 0 (St.start stubbornWorld)).2 =
        prologue posix (optsOf 2) 0 (St.start stubbornWorld) ++
          (List.replicate k [Event.sleep 1,
            Event.killpg (resolvedPgid posix (optsOf 2) 0 (St.start stubbornWorld)) SIGTERM 0]).flatten ++
          [Event.sleep 1, Event.killpg (resolvedPgid posix (optsOf 2) 0 (St.start stubbornWorld)) SIGTERM r] ∧
      ∀ (p : String) (rr : Int),
        Event.remove p rr ∉ added (St.start stubbornWorld) (killProcess posix (optsOf 2) 0 (St.start stubbornWorld)).2) ∨
    (∃ (rk : Int),
      added (St.start stubbornWorld) (killProcess posix (optsOf 2) 0 (St.start stubbornWorld)).2 =
        prologue posix (optsOf 2) 0 (St.start stubbornWorld) ++
          (List.replicate (optsOf 2).killtimeout.toNat [Event.sleep 1,
            Event.killpg (resolvedPgid posix (optsOf 2) 0 (St.start stubbornWorld)) SIGTERM 0]).flatten ++
          [Event.cerr, Event.killpg (resolvedPgid posix (optsOf 2) 0 (St.start stubbornWorld)) SIGKILL rk,
            Event.remove (optsOf 2).pidFile 0] ∧
      posix.stat (optsOf 2).pidFile (killProcess posix (optsOf 2) 0 (St.start stubbornWorld)).2.os = none)) :=
  have hok : (killProcess posix (optsOf 2) 0 (St.start stubbornWorld)).1 =
      Outcome.returned EXIT_SUCCESS := by
    simp only [killProcess, killLoop_unroll]
    decide
  ⟨hok, killProcess_success_paths posix posix_laws (optsOf 2) 0 (St.start stubbornWorld) hok⟩

/-- C2 as stated fails: process 4242 leaves group 4200 during the first
second, the SIGTERM sent to the stale group fails, and `killProcess` returns
success with the PID file still in place and process 4242 still running. -/
theorem killProcess_success_with_pidfile_and_target_left :
    (killProcess posix (optsOf 5) 0 (St.start regroupWorld)).1 =
      Outcome.returned EXIT_SUCCESS ∧
    posix.stat pidPath (killProcess posix (optsOf 5) 0 (St.start regroupWorld)).2.os =
      some { st_mode := 0o100644, st_uid := 0, st_gid := 0 } ∧
    (posix.kill 4242 0 (killProcess posix (optsOf 5) 0 (St.start regroupWorld)).2.os).1 = 0 ∧
    (killProcess posix (optsOf 5) 0 (St.start regroupWorld)).2.os.procs =
      [{ pid := 100, pgid := 100, uid := 0, ignoresTerm := false, zombie := false },
       { pid := 4242, pgid := 4242, uid := 991, ignoresTerm := false, zombie := false }] := by
  simp only [killProcess, killLoop_unroll]
  decide

/-- C3 (as amended): when the PID-file checks and the probe pass,
`killtimeout = n ≥ 0`, every SIGTERM delivery to the resolved group succeeds
and none of the signals sent terminates the caller itself (it is not a member
of that group), `killProcess` performs exactly `n` rounds of `sleep(1)` and
SIGTERM, then sends one SIGKILL to the same group id (resolved once, before
the loop), then removes the PID file; it returns failure exactly when that
removal fails.  The final kernel state is the one these calls leave, in this
order, and after a successful removal the PID file is absent. -/
theorem killProcess_escalates_after_timeout (K : OS σ) (opts : OptionParser)
    (uninit : Int) (s : St σ) (info : StatInfo) (n : Nat)
    (hn : opts.killtimeout = (n : Int))
    (hstat : K.stat opts.pidFile s.os = some info)
    (hreg : (info.st_mode &&& S_IFMT) = S_IFREG)
    (hprobe : (K.kill (resolvedPid K opts uninit s) 0 s.os).1 = 0)
    (hterm : ∀ k, k < n →
      (roundCall K (resolvedPgid K opts uninit s)
        (roundsState K (resolvedPgid K opts uninit s) k (entryState K opts uninit s))).1 = 0)
    (hlive : ∀ k, k < n →
      K.alive (roundCall K (resolvedPgid K opts uninit s)
        (roundsState K (resolvedPgid K opts uninit s) k (entryState K opts uninit s))).2 = true)
    (hlast : K.alive (killCall K opts uninit s).2 = true) :
    added s (killProcess K opts uninit s).2 =
      prologue K opts uninit s ++
        (List.replicate n [Event.sleep 1,
          Event.killpg (resolvedPgid K opts uninit s) SIGTERM 0]).flatten ++
        [Event.cerr,
          Event.killpg (resolvedPgid K opts uninit s) SIGKILL (killCall K opts uninit s).1,
          Event.remove opts.pidFile (removeCall K opts uninit s).1] ++
        (if (removeCall K opts uninit s).1 ≠ 0 then [Event.cerr] else []) ∧
    (killProcess K opts uninit s).2.os = (removeCall K opts uninit s).2 ∧
    ((killProcess K opts uninit s).1 = Outcome.returned EXIT_FAILURE ↔
      (removeCall K opts uninit s).1 ≠ 0) ∧
    ((removeCall K opts uninit s).1 = 0 →
      (killProcess K opts uninit s).1 = Outcome.returned EXIT_SUCCESS) ∧
    (FsLaws K → (removeCall K opts uninit s).1 = 0 →
      K.stat opts.pidFile (killProcess K opts uninit s).2.os = none) := by
  have hnat : opts.killtimeout.toNat = n := by omega
  rcases killProcess_spec K opts uninit s info hstat hreg hprobe with
    ⟨k, hk, hr, _, _, _⟩ | ⟨k, hk, hd, _, _, _⟩ | ⟨_, h1, h2, h3⟩ | ⟨hd, _, _, _⟩
  · exact absurd (hterm k (by omega)) hr
  · rw [hlive k (by omega)] at hd
    cases hd
  · refine ⟨?_, h3, ?_, ?_, ?_⟩
    · rw [h2, hnat]
    · rw [h1]
      by_cases hrm : (removeCall K opts uninit s).1 = 0
      · simp [hrm, EXIT_SUCCESS, EXIT_FAILURE]
      · simp [hrm]
    · intro hrm
      rw [h1]
      simp [hrm]
    · intro hK hrm
      rw [h3]
      exact hK.remove_gone _ _ hrm
  · rw [hlast] at hd
    cases hd

/-- C3, on an explicit input: `killtimeout = 3` and a target that ignores
SIGTERM, in a group of its own, give three sleeps and three SIGTERM sends
before the SIGKILL. -/
theorem killProcess_escalates_after_timeout_witness :
    ((optsOf 3).killtimeout = ((3 : Nat) : Int) ∧
      posix.stat (optsOf 3).pidFile (St.start stubbornWorld).os =
        some { st_mode := 0o100644, st_uid := 0, st_gid := 0 } ∧
      ((0o100644 : Nat) &&& S_IFMT) = S_IFREG ∧
      (posix.kill (resolvedPid posix (optsOf 3) 0 (St.start stubbornWorld)) 0
        (St.start stubbornWorld).os).1 = 0 ∧
      (∀ k, k < 3 →
        (roundCall posix (resolvedPgid posix (optsOf 3) 0 (St.start stubbornWorld))
          (roundsState posix (resolvedPgid posix (optsOf 3) 0 (St.start stubbornWorld)) k
            (entryState posix (optsOf 3) 0 (St.start stubbornWorld)))).1 = 0) ∧
      (∀ k, k < 3 →
        posix.alive (roundCall posix (resolvedPgid posix (optsOf 3) 0 (St.start stubbornWorld))
          (roundsState posix (resolvedPgid posix (optsOf 3) 0 (St.start stubbornWorld)) k
            (entryState posix (optsOf 3) 0 (St.start stubbornWorld)))).2 = true) ∧
      posix.alive (killCall posix (optsOf 3) 0 (St.start stubbornWorld)).2 = true) ∧
    (added (St.start stubbornWorld) (killProcess posix (optsOf 3) 0 (St.start stubbornWorld)).2 =
      prologue posix (optsOf 3) 0 (St.start stubbornWorld) ++
        (List.replicate 3 [Event.sleep 1,
          Event.killpg (resolvedPgid posix (optsOf 3) 0 (St.start stubbornWorld)) SIGTERM 0]).flatten ++
        [Event.cerr,
          Event.killpg (resolvedPgid posix (optsOf 3) 0 (St.start stubbornWorld)) SIGKILL (killCall posix (optsOf 3) 0 (St.start stubbornWorld)).1,
          Event.remove (optsOf 3).pidFile (removeCall posix (optsOf 3) 0 (St.start stubbornWorld)).1] ++
        (if (removeCall posix (optsOf 3) 0 (St.start stubbornWorld)).1 ≠ 0 then [Event.cerr] else []) ∧
    (killProcess posix (optsOf 3) 0 (St.start stubbornWorld)).2.os = (removeCall posix (optsOf 3) 0 (St.start stubbornWorld)).2 ∧
    ((killProcess posix (optsOf 3) 0 (St.start stubbornWorld)).1 = Outcome.returned EXIT_FAILURE ↔
      (removeCall posix (optsOf 3) 0 (St.start stubbornWorld)).1 ≠ 0) ∧
    ((removeCall posix (optsOf 3) 0 (St.start stubbornWorld)).1 = 0 →
      (killProcess posix (optsOf 3) 0 (St.start stubbornWorld)).1 = Outcome.returned EXIT_SUCCESS) ∧
    (FsLaws posix → (removeCall posix (optsOf 3) 0 (St.start stubbornWorld)).1 = 0 →
      posix.stat (optsOf 3).pidFile (killProcess posix (optsOf 3) 0 (St.start stubbornWorld)).2.os = none)) :=
  ⟨⟨by decide, by decide, by decide, by decide, by decide, by decide, by decide⟩,
   killProcess_escalates_after_timeout posix (optsOf 3) 0 (St.start stubbornWorld)
     { st_mode := 0o100644, st_uid := 0, st_gid := 0 } 3
     (by decide) (by decide) (by decide) (by decide) (by decide) (by decide) (by decide)⟩

/-- C3 as stated fails: the target ignores SIGTERM, every delivery succeeds,
`killtimeout = 3`, and the target shares its process group with the caller.
The first SIGTERM goes to the caller as well and terminates it inside
`killpg`: one sleep and one SIGTERM instead of three, no SIGKILL, no removal;
the PID file is still in place and the target still runs. -/
theorem killProcess_terminated_by_own_sigterm :
    posix.stat pidPath (St.start sharedGroupWorld).os =
      some { st_mode := 0o100644, st_uid := 0, st_gid := 0 } ∧
    (posix.kill 4242 0 (St.start sharedGroupWorld).os).1 = 0 ∧
    (killProcess posix (optsOf 3) 0 (St.start sharedGroupWorld)).1 = Outcome.killed SIGTERM ∧
    (killProcess posix (optsOf 3) 0 (St.start sharedGroupWorld)).2.trace =
      [Event.stat pidPath true, Event.ifstream pidPath true,
       Event.kill 4242 0 0, Event.getpgid 4242 90,
       Event.sleep 1, Event.killpg 90 SIGTERM 0] ∧
    posix.stat pidPath (killProcess posix (optsOf 3) 0 (St.start sharedGroupWorld)).2.os =
      some { st_mode := 0o100644, st_uid := 0, st_gid := 0 } ∧
    (killProcess posix (optsOf 3) 0 (St.start sharedGroupWorld)).2.os.procs =
      [{ pid := 90, pgid := 90, uid := 0, ignoresTerm := false, zombie := true },
       { pid := 100, pgid := 90, uid := 0, ignoresTerm := false, zombie := true },
       { pid := 4242, pgid := 90, uid := 991, ignoresTerm := true, zombie := false }] := by
  simp only [killProcess, killLoop_unroll]
  decide

/-- C4 (the code at a failing input): the PID file is a regular file with the
text `junk`.  The extraction stores 0 in `pid` whatever the variable held, no
check of the stream follows, and `killProcess` probes process id 0, resolves
the caller's own process group (100) and, within the first second, sends
SIGTERM to it.  No failure is returned: the signal terminates the caller
inside `killpg`, and these six events are all it does. -/
theorem killProcess_unparsable_pidfile_signals_own_group (uninit : Int) :
    posix.stat pidPath (St.start junkWorld).os =
      some { st_mode := 0o100644, st_uid := 0, st_gid := 0 } ∧
    posix.slurp pidPath (St.start junkWorld).os = some "junk".toList ∧
    resolvedPid posix (optsOf 1) uninit (St.start junkWorld) = 0 ∧
    (killProcess posix (optsOf 1) uninit (St.start junkWorld)).2.trace.take 6 =
      [Event.stat pidPath true, Event.ifstream pidPath true,
       Event.kill 0 0 0, Event.getpgid 0 100,
       Event.sleep 1, Event.killpg 100 SIGTERM 0] ∧
    (killProcess posix (optsOf 1) uninit (St.start junkWorld)).2.trace.length = 6 ∧
    (killProcess posix (optsOf 1) uninit (St.start junkWorld)).1 = Outcome.killed SIGTERM ∧
    posix.alive (killProcess posix (optsOf 1) uninit (St.start junkWorld)).2.os = false ∧
    (killProcess posix (optsOf 1) uninit (St.start junkWorld)).2.os.procs =
      [{ pid := 100, pgid := 100, uid := 0, ignoresTerm := false, zombie := true }] := by
  have h : ∀ u : Int, killProcess posix (optsOf 1) u (St.start junkWorld) =
      killProcess posix (optsOf 1) 0 (St.start junkWorld) := by
    intro u
    simp only [killProcess, killLoop_unroll]
    rfl
  rw [h uninit]
  refine ⟨by decide, by decide, rfl, ?_⟩
  simp only [killProcess, killLoop_unroll]
  decide

end KillClaims

/-! ## Claims on `daemonize` -/

section DaemonClaims
variable {σ : Type}

/-- State after the `setsid` call of `daemonize` in the child of the first
fork. -/
theorem daemonize_child (K : OS σ) (opts : OptionParser) (fuel : Nat) (s : St σ)
    (hd : opts.daemonize = true)
    (hfork : (K.fork s.os).1 = 0)
    (hsid : 0 ≤ (K.setsid (K.fork s.os).2).1) :
    daemonize K opts (fuel + 1) s =
      some (Outcome.returned EXIT_SUCCESS,
        { os := K.umask 0 (K.setsid (K.fork s.os).2).2,
          running_ := s.running_,
          trace := s.trace ++
            [Event.log Level.trace, Event.log Level.debug, Event.fork 0,
             Event.log Level.debug, Event.setsid (K.setsid (K.fork s.os).2).1,
             Event.umask 0] }) := by
  have h1 : (sys_fork K (log Level.debug (log Level.trace s))).1 = 0 := by
    simpa [sys_fork, log, emit] using hfork
  have h2 : ¬ (sys_setsid K (log Level.debug
      (sys_fork K (log Level.debug (log Level.trace s))).2)).1 < 0 := by
    simpa [sys_setsid, sys_fork, log, emit] using hsid
  unfold daemonize
  simp only [hd, h1, h2, closeLoop]
  simp [sys_umask, sys_setsid, sys_fork, log, emit, hfork]

/-- C5 (the code where every call succeeds): with the daemonize option set,
`fork` returning in the child and `setsid` succeeding, `daemonize` returns
success having called `fork` exactly once, before `setsid`; no second `fork`
follows `setsid`, so the process that returns is the child of the invoker and
the session leader. -/
theorem daemonize_forks_once (K : OS σ) (opts : OptionParser) (fuel : Nat) (s : St σ)
    (hd : opts.daemonize = true)
    (hfork : (K.fork s.os).1 = 0)
    (hsid : 0 ≤ (K.setsid (K.fork s.os).2).1) :
    ∃ s1 : St σ, daemonize K opts (fuel + 1) s = some (Outcome.returned EXIT_SUCCESS, s1) ∧
      added s s1 =
        [Event.log Level.trace, Event.log Level.debug, Event.fork 0,
         Event.log Level.debug, Event.setsid (K.setsid (K.fork s.os).2).1,
         Event.umask 0] ∧
      (added s s1).countP (fun e => e matches Event.fork _) = 1 := by
  refine ⟨_, daemonize_child K opts fuel s hd hfork hsid, ?_⟩
  rw [added_of_trace s _ _ rfl]
  exact ⟨rfl, rfl⟩

/-- C5, on an explicit input: started from a shell with `fork` returning in
the child. -/
theorem daemonize_forks_once_witness :
    ((optsOf 3).daemonize = true ∧
      (posix.fork (St.start forkWorld).os).1 = 0 ∧
      0 ≤ (posix.setsid (posix.fork (St.start forkWorld).os).2).1) ∧
    ∃ s1 : St World,
      daemonize posix (optsOf 3) (0 + 1) (St.start forkWorld) =
        some (Outcome.returned EXIT_SUCCESS, s1) ∧
      added (St.start forkWorld) s1 =
        [Event.log Level.trace, Event.log Level.debug, Event.fork 0,
         Event.log Level.debug,
         Event.setsid (posix.setsid (posix.fork (St.start forkWorld).os).2).1,
         Event.umask 0] ∧
      (added (St.start forkWorld) s1).countP (fun e => e matches Event.fork _) = 1 :=
  ⟨⟨by decide, by decide, by decide⟩,
   daemonize_forks_once posix (optsOf 3) 0 (St.start forkWorld)
     (by decide) (by decide) (by decide)⟩

/-- C6 (the code where every call succeeds): the closing loop
`for (int i=0; i>=2; i++)` ends before its first round, so `daemonize` returns
success without a single `close` call; the kernel state is the one left by
`umask(0)`. -/
theorem daemonize_closes_nothing (K : OS σ) (opts : OptionParser) (fuel : Nat) (s : St σ)
    (hd : opts.daemonize = true)
    (hfork : (K.fork s.os).1 = 0)
    (hsid : 0 ≤ (K.setsid (K.fork s.os).2).1) :
    ∃ s1 : St σ, daemonize K opts (fuel + 1) s = some (Outcome.returned EXIT_SUCCESS, s1) ∧
      (∀ fd : Int, Event.close fd ∉ added s s1) ∧
      s1.os = K.umask 0 (K.setsid (K.fork s.os).2).2 := by
  refine ⟨_, daemonize_child K opts fuel s hd hfork hsid, ?_, rfl⟩
  intro fd hmem
  simp [added] at hmem

/-- C6, on an explicit input: descriptors 0, 1 and 2 are still open when
`daemonize` has returned success. -/
theorem daemonize_closes_nothing_witness :
    ((optsOf 3).daemonize = true ∧
      (posix.fork (St.start forkWorld).os).1 = 0 ∧
      0 ≤ (posix.setsid (posix.fork (St.start forkWorld).os).2).1) ∧
    ∃ s1 : St World,
      daemonize posix (optsOf 3) (0 + 1) (St.start forkWorld) =
        some (Outcome.returned EXIT_SUCCESS, s1) ∧
      (∀ fd : Int, Event.close fd ∉ added (St.start forkWorld) s1) ∧
      s1.os = posix.umask 0 (posix.setsid (posix.fork (St.start forkWorld).os).2).2 :=
  ⟨⟨by decide, by decide, by decide⟩,
   daemonize_closes_nothing posix (optsOf 3) 0 (St.start forkWorld)
     (by decide) (by decide) (by decide)⟩

/-- On the explicit input the process in which `daemonize` returns is one
fork away from the invoker, leads its session, and has descriptors 0, 1, 2
open. -/
theorem daemonize_posix_run :
    (daemonize posix (optsOf 3) 1 (St.start forkWorld)).map
        (fun r => (r.1, r.2.os.depth, r.2.os.leader, r.2.os.fds)) =
      some (Outcome.returned EXIT_SUCCESS, 1, true, [0, 1, 2]) := by
  decide

end DaemonClaims

/-! ## Claims on the PID file and the signal handler -/

section PidFileClaims
variable {σ : Type}

/-- C8: whenever the configured PID file path already exists,
`createPidFile` returns failure after `stat` and one error record: the stream
is never opened on the path, nothing is written, and the kernel state, hence
the text of the existing file, is what it was. -/
theorem createPidFile_existing (K : OS σ) (opts : OptionParser) (s : St σ)
    (hex : (K.stat opts.pidFile s.os).isSome = true) :
    (createPidFile K opts s).1 = EXIT_FAILURE ∧
    (createPidFile K opts s).2.os = s.os ∧
    K.slurp opts.pidFile (createPidFile K opts s).2.os = K.slurp opts.pidFile s.os ∧
    added s (createPidFile K opts s).2 =
      [Event.log Level.trace, Event.stat opts.pidFile true, Event.log Level.error] ∧
    (∀ (p : String) (b : Bool), Event.ofstream_open p b ∉ added s (createPidFile K opts s).2) ∧
    (∀ (p : String) (t : List Char),
      Event.ofstream_write p t ∉ added s (createPidFile K opts s).2) := by
  obtain ⟨info, hinfo⟩ := Option.isSome_iff_exists.mp hex
  have hr : createPidFile K opts s =
      (EXIT_FAILURE,
        { os := s.os
          running_ := s.running_
          trace := s.trace ++
            [Event.log Level.trace, Event.stat opts.pidFile true, Event.log Level.error] }) := by
    simp [createPidFile, sys_stat, log, emit, hinfo]
  rw [hr]
  refine ⟨rfl, rfl, rfl, added_of_trace s _ _ rfl, ?_, ?_⟩
  · intro p b hmem
    rw [added_of_trace s _ _ rfl] at hmem
    simp at hmem
  · intro p t hmem
    rw [added_of_trace s _ _ rfl] at hmem
    simp at hmem

/-- C8, on an explicit input: a PID file with the text `4242` is in place. -/
theorem createPidFile_existing_witness :
    (posix.stat (optsOf 3).pidFile (St.start stubbornWorld).os).isSome = true ∧
    ((createPidFile posix (optsOf 3) (St.start stubbornWorld)).1 = EXIT_FAILURE ∧
    (createPidFile posix (optsOf 3) (St.start stubbornWorld)).2.os = (St.start stubbornWorld).os ∧
    posix.slurp (optsOf 3).pidFile (createPidFile posix (optsOf 3) (St.start stubbornWorld)).2.os =
      posix.slurp (optsOf 3).pidFile (St.start stubbornWorld).os ∧
    added (St.start stubbornWorld) (createPidFile posix (optsOf 3) (St.start stubbornWorld)).2 =
      [Event.log Level.trace, Event.stat (optsOf 3).pidFile true, Event.log Level.error] ∧
    (∀ (p : String) (b : Bool),
      Event.ofstream_open p b ∉
        added (St.start stubbornWorld) (createPidFile posix (optsOf 3) (St.start stubbornWorld)).2) ∧
    (∀ (p : String) (t : List Char),
      Event.ofstream_write p t ∉
        added (St.start stubbornWorld)
          (createPidFile posix (optsOf 3) (St.start stubbornWorld)).2)) :=
  ⟨by decide, createPidFile_existing posix (optsOf 3) (St.start stubbornWorld) (by decide)⟩

end PidFileClaims

/-! ## Lemmas on the directory functions -/

section DirLemmas
variable {σ : Type}

/-- The function `create_dir` on `p` leaves every other path as it was. -/
theorem create_dir_frame (K : OS σ) (hK : FsLaws K) (p q : String) (hq : q ≠ p) (s : St σ) :
    K.stat q (create_dir K p s).2.os = K.stat q s.os := by
  unfold create_dir
  cases hst : K.stat p s.os with
  | some info =>
    by_cases hd : (info.st_mode &&& S_IFMT) = S_IFDIR
    · simp [sys_stat, emit, hst, hd]
    · simp [sys_stat, emit, cerr, hst, hd]
  | none =>
    by_cases hm : (K.mkdir p 0o750 s.os).1 = 0
    · simp [sys_stat, sys_mkdir, emit, hst, hm, hK.mkdir_frame p _ s.os q hq]
    · simp [sys_stat, sys_mkdir, emit, cerr, perror, hst, hm, hK.mkdir_frame p _ s.os q hq]

/-- After a successful `create_dir` the path is a directory. -/
theorem create_dir_ok (K : OS σ) (hK : FsLaws K) (p : String) (s : St σ)
    (hok : (create_dir K p s).1 = EXIT_SUCCESS) :
    ∃ i, K.stat p (create_dir K p s).2.os = some i ∧ (i.st_mode &&& S_IFMT) = S_IFDIR := by
  unfold create_dir at hok ⊢
  cases hst : K.stat p s.os with
  | some info =>
    by_cases hd : (info.st_mode &&& S_IFMT) = S_IFDIR
    · exact ⟨info, by simp [sys_stat, emit, hst, hd], hd⟩
    · simp [sys_stat, emit, cerr, hst, hd, EXIT_SUCCESS, EXIT_FAILURE] at hok
  | none =>
    by_cases hm : (K.mkdir p 0o750 s.os).1 = 0
    · obtain ⟨i, hi, hdir⟩ := hK.mkdir_dir p _ s.os hm
      exact ⟨i, by simp [sys_stat, sys_mkdir, emit, hst, hm, hi], hdir⟩
    · simp [sys_stat, sys_mkdir, emit, cerr, perror, hst, hm, EXIT_SUCCESS, EXIT_FAILURE] at hok

/-- The function `chowner` on `p` leaves every other path as it was. -/
theorem chowner_frame (K : OS σ) (hK : FsLaws K) (p q : String) (hq : q ≠ p) (u g : Nat)
    (s : St σ) : K.stat q (chowner K p u g s).2.os = K.stat q s.os := by
  unfold chowner
  by_cases hc : (K.chown p u g s.os).1 = 0
  · simp [sys_chown, emit, hc, hK.chown_frame p u g s.os q hq]
  · simp [sys_chown, emit, cerr, perror, hc, hK.chown_frame p u g s.os q hq]

/-- After a successful `chowner` the path has the given owner and group, an
id `NO_ID` leaving the owner, or the group, as it was. -/
theorem chowner_ok (K : OS σ) (hK : FsLaws K) (p : String) (u g : Nat) (s : St σ)
    (hu : u ≤ NO_ID) (hg : g ≤ NO_ID)
    (hok : (chowner K p u g s).1 = EXIT_SUCCESS) :
    ∃ i, K.stat p s.os = some i ∧
      K.stat p (chowner K p u g s).2.os =
        some { i with st_uid := if u = NO_ID then i.st_uid else u,
                      st_gid := if g = NO_ID then i.st_gid else g } := by
  unfold chowner at hok ⊢
  by_cases hc : (K.chown p u g s.os).1 = 0
  · obtain ⟨i, hi, hi2⟩ := hK.chown_owner p u g s.os hu hg hc
    exact ⟨i, hi, by simp [sys_chown, emit, hc, hi2]⟩
  · simp [sys_chown, emit, cerr, perror, hc, EXIT_SUCCESS, EXIT_FAILURE] at hok

/-- The function `create_dir_and_chown` on `p` leaves every other path as it
was. -/
theorem cdc_frame (K : OS σ) (hK : FsLaws K) (p q : String) (hq : q ≠ p) (u g : Nat)
    (s : St σ) : K.stat q (create_dir_and_chown K p u g s).2.os = K.stat q s.os := by
  unfold create_dir_and_chown
  by_cases h1 : (create_dir K p s).1 = 0
  · by_cases h2 : (chowner K p u g (create_dir K p s).2).1 = 0
    · simp [h1, h2, chowner_frame K hK p q hq, create_dir_frame K hK p q hq]
    · simp [h1, h2, chowner_frame K hK p q hq, create_dir_frame K hK p q hq]
  · simp [h1, create_dir_frame K hK p q hq]

/-- After a successful `create_dir_and_chown` the path is a directory with the
given owner and group, an id `NO_ID` apart. -/
theorem cdc_ok (K : OS σ) (hK : FsLaws K) (p : String) (u g : Nat) (s : St σ)
    (hu : u ≤ NO_ID) (hg : g ≤ NO_ID)
    (hok : (create_dir_and_chown K p u g s).1 = EXIT_SUCCESS) :
    ∃ i, K.stat p (create_dir_and_chown K p u g s).2.os = some i ∧
      (i.st_mode &&& S_IFMT) = S_IFDIR ∧
      (u ≠ NO_ID → i.st_uid = u) ∧ (g ≠ NO_ID → i.st_gid = g) := by
  unfold create_dir_and_chown at hok ⊢
  by_cases h1 : (create_dir K p s).1 = 0
  · by_cases h2 : (chowner K p u g (create_dir K p s).2).1 = 0
    · obtain ⟨i, hi, hdir⟩ := create_dir_ok K hK p s h1
      obtain ⟨j, hj, hj2⟩ := chowner_ok K hK p u g _ hu hg h2
      rw [hi] at hj
      cases hj
      refine ⟨{ i with st_uid := if u = NO_ID then i.st_uid else u,
                       st_gid := if g = NO_ID then i.st_gid else g },
        by simp [h1, h2, hj2], hdir, ?_, ?_⟩
      · intro hne
        simp [hne]
      · intro hne
        simp [hne]
    · simp [h1, h2, EXIT_SUCCESS, EXIT_FAILURE] at hok
  · simp [h1, EXIT_SUCCESS, EXIT_FAILURE] at hok

/-- The events `create_dir` adds all concern its own path. -/
theorem create_dir_events (K : OS σ) (p : String) (s : St σ) :
    ∃ evs : List Event, (create_dir K p s).2.trace = s.trace ++ evs ∧
      ∀ e ∈ evs, (∃ b, e = Event.stat p b) ∨ (∃ r, e = Event.mkdir p 0o750 r) ∨
        e = Event.perror ∨ e = Event.cerr := by
  unfold create_dir
  cases hst : K.stat p s.os with
  | some info =>
    by_cases hd : (info.st_mode &&& S_IFMT) = S_IFDIR
    · exact ⟨[Event.stat p true], by simp [sys_stat, emit, hst, hd], by simp⟩
    · exact ⟨[Event.stat p true, Event.cerr], by simp [sys_stat, emit, cerr, hst, hd], by simp⟩
  | none =>
    by_cases hm : (K.mkdir p 0o750 s.os).1 = 0
    · exact ⟨[Event.stat p false, Event.mkdir p 0o750 0],
        by simp [sys_stat, sys_mkdir, emit, hst, hm], by simp⟩
    · exact ⟨[Event.stat p false, Event.mkdir p 0o750 (K.mkdir p 0o750 s.os).1,
          Event.perror, Event.cerr],
        by simp [sys_stat, sys_mkdir, emit, cerr, perror, hst, hm], by simp⟩

/-- The events `chowner` adds all concern its own path. -/
theorem chowner_events (K : OS σ) (p : String) (u g : Nat) (s : St σ) :
    ∃ evs : List Event, (chowner K p u g s).2.trace = s.trace ++ evs ∧
      ∀ e ∈ evs, (∃ r, e = Event.chown p u g r) ∨ e = Event.perror ∨ e = Event.cerr := by
  unfold chowner
  by_cases hc : (K.chown p u g s.os).1 = 0
  · exact ⟨[Event.chown p u g 0], by simp [sys_chown, emit, hc], by simp⟩
  · exact ⟨[Event.chown p u g (K.chown p u g s.os).1, Event.perror, Event.cerr],
      by simp [sys_chown, emit, cerr, perror, hc], by simp⟩

/-- The events `create_dir_and_chown` adds all concern its own path. -/
theorem cdc_events (K : OS σ) (p : String) (u g : Nat) (s : St σ) :
    ∃ evs : List Event, (create_dir_and_chown K p u g s).2.trace = s.trace ++ evs ∧
      ∀ e ∈ evs, (∃ b, e = Event.stat p b) ∨ (∃ r, e = Event.mkdir p 0o750 r) ∨
        (∃ r, e = Event.chown p u g r) ∨ e = Event.perror ∨ e = Event.cerr := by
  obtain ⟨e1, ht1, hm1⟩ := create_dir_events K p s
  obtain ⟨e2, ht2, hm2⟩ := chowner_events K p u g (create_dir K p s).2
  have lift1 : ∀ e ∈ e1, (∃ b, e = Event.stat p b) ∨ (∃ r, e = Event.mkdir p 0o750 r) ∨
      (∃ r, e = Event.chown p u g r) ∨ e = Event.perror ∨ e = Event.cerr := by
    intro e he
    rcases hm1 e he with h | h | h | h
    · exact Or.inl h
    · exact Or.inr (Or.inl h)
    · exact Or.inr (Or.inr (Or.inr (Or.inl h)))
    · exact Or.inr (Or.inr (Or.inr (Or.inr h)))
  unfold create_dir_and_chown
  by_cases h1 : (create_dir K p s).1 = 0
  · refine ⟨e1 ++ e2, ?_, ?_⟩
    · by_cases h2 : (chowner K p u g (create_dir K p s).2).1 = 0
      · simp [h1, h2, ht1, ht2]
      · simp [h1, h2, ht1, ht2]
    · intro e he
      rcases List.mem_append.mp he with he | he
      · exact lift1 e he
      · rcases hm2 e he with h | h | h
        · exact Or.inr (Or.inr (Or.inl h))
        · exact Or.inr (Or.inr (Or.inr (Or.inl h)))
        · exact Or.inr (Or.inr (Or.inr (Or.inr h)))
  · exact ⟨e1, by simp [h1, ht1], lift1⟩

/-- On a path that exists and is not a directory `create_dir_and_chown` fails
after `stat` and one message. -/
theorem cdc_conflict (K : OS σ) (p : String) (u g : Nat) (s : St σ) (i : StatInfo)
    (hst : K.stat p s.os = some i) (hnd : (i.st_mode &&& S_IFMT) ≠ S_IFDIR) :
    create_dir_and_chown K p u g s =
      (EXIT_FAILURE,
        { os := s.os
          running_ := s.running_
          trace := s.trace ++ [Event.stat p true, Event.cerr] }) := by
  simp [create_dir_and_chown, create_dir, sys_stat, emit, cerr, hst, hnd, EXIT_FAILURE]

/-- The function `create_dir` never calls `chown`. -/
theorem create_dir_fail_events (K : OS σ) (p : String) (s : St σ) :
    ∀ (q : String) (u g : Nat) (r : Int),
      Event.chown q u g r ∉ added s (create_dir K p s).2 := by
  intro q u g r hmem
  obtain ⟨e1, ht1, hm1⟩ := create_dir_events K p s
  rw [added_of_trace s _ _ ht1] at hmem
  rcases hm1 _ hmem with ⟨b, h⟩ | ⟨r, h⟩ | h | h <;> cases h

end DirLemmas

/-! ## Claims on `createDirs` -/

section DirClaims
variable {σ : Type}

/-- C9 (as amended): when neither directory exists and `createDirs` returns
success, in the final state both paths are directories; their owner is
`opts.pw_uid` unless that is the id `(uid_t)-1`, and their group is
`opts.pw_gid` unless that is the id `(gid_t)-1`, which `chown` reads as
"leave unchanged".  And when the `create_dir` step fails,
`create_dir_and_chown` stops there with failure, in the state `create_dir`
left, without any `chown` call. -/
theorem createDirs_creates_owned_dirs (K : OS σ) (hK : FsLaws K) :
    (∀ (opts : OptionParser) (s : St σ),
      opts.pw_uid ≤ NO_ID → opts.pw_gid ≤ NO_ID →
      K.stat opts.logDir s.os = none → K.stat opts.pidDir s.os = none →
      (createDirs K opts s).1 = EXIT_SUCCESS →
      (∃ i, K.stat opts.logDir (createDirs K opts s).2.os = some i ∧
        (i.st_mode &&& S_IFMT) = S_IFDIR ∧
        (opts.pw_uid ≠ NO_ID → i.st_uid = opts.pw_uid) ∧
        (opts.pw_gid ≠ NO_ID → i.st_gid = opts.pw_gid)) ∧
      (∃ i, K.stat opts.pidDir (createDirs K opts s).2.os = some i ∧
        (i.st_mode &&& S_IFMT) = S_IFDIR ∧
        (opts.pw_uid ≠ NO_ID → i.st_uid = opts.pw_uid) ∧
        (opts.pw_gid ≠ NO_ID → i.st_gid = opts.pw_gid))) ∧
    (∀ (path : String) (pw_uid pw_gid : Nat) (s : St σ),
      (create_dir K path s).1 ≠ EXIT_SUCCESS →
      create_dir_and_chown K path pw_uid pw_gid s = (EXIT_FAILURE, (create_dir K path s).2) ∧
      ∀ (q : String) (u g : Nat) (r : Int),
        Event.chown q u g r ∉ added s (create_dir_and_chown K path pw_uid pw_gid s).2) := by
  constructor
  · intro opts s hu hg _ _ hok
    have ha : (create_dir_and_chown K opts.logDir opts.pw_uid opts.pw_gid s).1 = 0 := by
      by_contra h
      simp [createDirs, h, EXIT_SUCCESS, EXIT_FAILURE] at hok
    have hb : (create_dir_and_chown K opts.pidDir opts.pw_uid opts.pw_gid
        (create_dir_and_chown K opts.logDir opts.pw_uid opts.pw_gid s).2).1 = 0 := by
      by_contra h
      simp [createDirs, ha, h, EXIT_SUCCESS, EXIT_FAILURE] at hok
    have hfin : (createDirs K opts s).2 =
        (create_dir_and_chown K opts.pidDir opts.pw_uid opts.pw_gid
          (create_dir_and_chown K opts.logDir opts.pw_uid opts.pw_gid s).2).2 := by
      simp [createDirs, ha, hb]
    rw [hfin]
    have hpid := cdc_ok K hK opts.pidDir opts.pw_uid opts.pw_gid _ hu hg hb
    refine ⟨?_, hpid⟩
    by_cases heq : opts.logDir = opts.pidDir
    · obtain ⟨i, hi, hrest⟩ := hpid
      refine ⟨i, ?_, hrest⟩
      rw [← hi, heq]
    · rw [cdc_frame K hK opts.pidDir opts.logDir heq]
      exact cdc_ok K hK opts.logDir opts.pw_uid opts.pw_gid s hu hg ha
  · intro path pw_uid pw_gid s hfail
    have hr : create_dir_and_chown K path pw_uid pw_gid s =
        (EXIT_FAILURE, (create_dir K path s).2) := by
      have h0 : (create_dir K path s).1 ≠ 0 := hfail
      simp [create_dir_and_chown, h0]
    refine ⟨hr, ?_⟩
    rw [hr]
    exact create_dir_fail_events K path s

/-- C9, on explicit inputs: with `/var/log` and `/var/run` in place both
directories are created and handed to 991:991; where the path is taken by a
regular file, `create_dir` fails and no `chown` is called. -/
theorem createDirs_creates_owned_dirs_witness :
    ((optsOf 3).pw_uid ≤ NO_ID ∧ (optsOf 3).pw_gid ≤ NO_ID ∧
      posix.stat (optsOf 3).logDir (St.start bareWorld).os = none ∧
      posix.stat (optsOf 3).pidDir (St.start bareWorld).os = none ∧
      (createDirs posix (optsOf 3) (St.start bareWorld)).1 = EXIT_SUCCESS ∧
      (create_dir posix runPath (St.start conflictWorld)).1 ≠ EXIT_SUCCESS) ∧
    ((∃ i, posix.stat (optsOf 3).logDir (createDirs posix (optsOf 3) (St.start bareWorld)).2.os =
          some i ∧
        (i.st_mode &&& S_IFMT) = S_IFDIR ∧
        ((optsOf 3).pw_uid ≠ NO_ID → i.st_uid = (optsOf 3).pw_uid) ∧
        ((optsOf 3).pw_gid ≠ NO_ID → i.st_gid = (optsOf 3).pw_gid)) ∧
      (∃ i, posix.stat (optsOf 3).pidDir (createDirs posix (optsOf 3) (St.start bareWorld)).2.os =
          some i ∧
        (i.st_mode &&& S_IFMT) = S_IFDIR ∧
        ((optsOf 3).pw_uid ≠ NO_ID → i.st_uid = (optsOf 3).pw_uid) ∧
        ((optsOf 3).pw_gid ≠ NO_ID → i.st_gid = (optsOf 3).pw_gid))) ∧
    (create_dir_and_chown posix runPath 991 991 (St.start conflictWorld) =
        (EXIT_FAILURE, (create_dir posix runPath (St.start conflictWorld)).2) ∧
      ∀ (q : String) (u g : Nat) (r : Int),
        Event.chown q u g r ∉
          added (St.start conflictWorld)
            (create_dir_and_chown posix runPath 991 991 (St.start conflictWorld)).2) :=
  ⟨⟨by decide, by decide, by decide, by decide, by decide, by decide⟩,
   (createDirs_creates_owned_dirs posix posix_laws).1 (optsOf 3) (St.start bareWorld)
     (by decide) (by decide) (by decide) (by decide) (by decide),
   (createDirs_creates_owned_dirs posix posix_laws).2 runPath 991 991 (St.start conflictWorld)
     (by decide)⟩

/-- C9 as stated fails: with `pw_uid` and `pw_gid` equal to 4294967295, the
id `(uid_t)-1`, neither directory exists, `createDirs` returns success, and
both directories belong to 0:0, the creating process, not to the configured
ids: `chown` was called with them and left owner and group as they were. -/
theorem createDirs_keeps_owner_for_reserved_id :
    optsNoId.pw_uid = 4294967295 ∧ optsNoId.pw_gid = 4294967295 ∧
    posix.stat optsNoId.logDir (St.start bareWorld).os = none ∧
    posix.stat optsNoId.pidDir (St.start bareWorld).os = none ∧
    (createDirs posix optsNoId (St.start bareWorld)).1 = EXIT_SUCCESS ∧
    posix.stat optsNoId.logDir (createDirs posix optsNoId (St.start bareWorld)).2.os =
      some { st_mode := 0o040750, st_uid := 0, st_gid := 0 } ∧
    posix.stat optsNoId.pidDir (createDirs posix optsNoId (St.start bareWorld)).2.os =
      some { st_mode := 0o040750, st_uid := 0, st_gid := 0 } ∧
    (createDirs posix optsNoId (St.start bareWorld)).2.trace =
      [Event.stat logPath false, Event.mkdir logPath 0o750 0,
       Event.chown logPath 4294967295 4294967295 0,
       Event.stat runPath false, Event.mkdir runPath 0o750 0,
       Event.chown runPath 4294967295 4294967295 0] := by
  decide

/-- C7 (as amended): when the log directory path exists and is not a
directory, `createDirs` returns failure after `stat` and one message, and the
kernel state is unchanged.  When the PID directory path exists and is not a
directory, `createDirs` returns failure and the kernel state is exactly the
one left by `create_dir_and_chown` on the log directory: every path other
than the log directory is as it was, the PID directory path included, on which
no `mkdir` and no `chown` is called; all that is added after the log
directory step is the `stat` of the PID directory path and one message. -/
theorem createDirs_conflict (K : OS σ) (hK : FsLaws K) (opts : OptionParser) (s : St σ) :
    ((∃ i, K.stat opts.logDir s.os = some i ∧ (i.st_mode &&& S_IFMT) ≠ S_IFDIR) →
      (createDirs K opts s).1 = EXIT_FAILURE ∧
      (createDirs K opts s).2.os = s.os ∧
      added s (createDirs K opts s).2 = [Event.stat opts.logDir true, Event.cerr]) ∧
    ((∃ i, K.stat opts.pidDir s.os = some i ∧ (i.st_mode &&& S_IFMT) ≠ S_IFDIR) →
      (createDirs K opts s).1 = EXIT_FAILURE ∧
      (createDirs K opts s).2.os =
        (create_dir_and_chown K opts.logDir opts.pw_uid opts.pw_gid s).2.os ∧
      (∀ q : String, q ≠ opts.logDir →
        K.stat q (createDirs K opts s).2.os = K.stat q s.os) ∧
      K.stat opts.pidDir (createDirs K opts s).2.os = K.stat opts.pidDir s.os ∧
      added s (createDirs K opts s).2 =
        added s (create_dir_and_chown K opts.logDir opts.pw_uid opts.pw_gid s).2 ++
          (if (create_dir_and_chown K opts.logDir opts.pw_uid opts.pw_gid s).1 = 0
            then [Event.stat opts.pidDir true, Event.cerr] else []) ∧
      (∀ (m : Nat) (r : Int), Event.mkdir opts.pidDir m r ∉ added s (createDirs K opts s).2) ∧
      (∀ (u g : Nat) (r : Int),
        Event.chown opts.pidDir u g r ∉ added s (createDirs K opts s).2)) := by
  have hlog : (∃ i, K.stat opts.logDir s.os = some i ∧ (i.st_mode &&& S_IFMT) ≠ S_IFDIR) →
      createDirs K opts s =
        (EXIT_FAILURE,
          { os := s.os
            running_ := s.running_
            trace := s.trace ++ [Event.stat opts.logDir true, Event.cerr] }) := by
    rintro ⟨i, hst, hnd⟩
    simp [createDirs, cdc_conflict K opts.logDir opts.pw_uid opts.pw_gid s i hst hnd,
      EXIT_FAILURE]
  constructor
  · intro h
    rw [hlog h]
    exact ⟨rfl, rfl, added_of_trace s _ _ rfl⟩
  · rintro ⟨i, hst, hnd⟩
    by_cases heq : opts.logDir = opts.pidDir
    · have hst1 : K.stat opts.logDir s.os = some i := by rw [heq]; exact hst
      have hcdc := cdc_conflict K opts.logDir opts.pw_uid opts.pw_gid s i hst1 hnd
      rw [hlog ⟨i, hst1, hnd⟩, hcdc, added_of_trace s _ _ rfl]
      refine ⟨rfl, rfl, fun _ _ => rfl, rfl, ?_, ?_, ?_⟩
      · simp [EXIT_FAILURE]
      · intro m r hmem
        simp at hmem
      · intro u g r hmem
        simp at hmem
    · have hne : opts.pidDir ≠ opts.logDir := fun h => heq h.symm
      obtain ⟨e1, ht1, hm1⟩ := cdc_events K opts.logDir opts.pw_uid opts.pw_gid s
      have hfr := cdc_frame K hK opts.logDir opts.pidDir hne opts.pw_uid opts.pw_gid s
      have hclean : (∀ (m : Nat) (r : Int), Event.mkdir opts.pidDir m r ∉ e1) ∧
          (∀ (u g : Nat) (r : Int), Event.chown opts.pidDir u g r ∉ e1) := by
        constructor
        · intro m r hmem
          rcases hm1 _ hmem with ⟨b, h⟩ | ⟨r1, h⟩ | ⟨r1, h⟩ | h | h
          · simp at h
          · simp only [Event.mkdir.injEq] at h
            exact hne h.1
          · simp at h
          · simp at h
          · simp at h
        · intro u g r hmem
          rcases hm1 _ hmem with ⟨b, h⟩ | ⟨r1, h⟩ | ⟨r1, h⟩ | h | h
          · simp at h
          · simp at h
          · simp only [Event.chown.injEq] at h
            exact hne h.1
          · simp at h
          · simp at h
      have hadd1 := added_of_trace s _ _ ht1
      by_cases ha : (create_dir_and_chown K opts.logDir opts.pw_uid opts.pw_gid s).1 = 0
      · have hst2 : K.stat opts.pidDir
            (create_dir_and_chown K opts.logDir opts.pw_uid opts.pw_gid s).2.os = some i := by
          rw [hfr, hst]
        have hr : createDirs K opts s =
            (EXIT_FAILURE,
              { os := (create_dir_and_chown K opts.logDir opts.pw_uid opts.pw_gid s).2.os
                running_ := (create_dir_and_chown K opts.logDir opts.pw_uid opts.pw_gid s).2.running_
                trace := s.trace ++ (e1 ++ [Event.stat opts.pidDir true, Event.cerr]) }) := by
          simp [createDirs, ha, cdc_conflict K opts.pidDir opts.pw_uid opts.pw_gid _ i hst2 hnd,
            EXIT_FAILURE, ht1]
        rw [hr, added_of_trace s _ _ rfl, hadd1]
        refine ⟨rfl, rfl, ?_, hfr, ?_, ?_, ?_⟩
        · intro q hq
          exact cdc_frame K hK opts.logDir q hq opts.pw_uid opts.pw_gid s
        · simp [ha]
        · intro m r hmem
          rcases List.mem_append.mp hmem with h | h
          · exact hclean.1 m r h
          · simp at h
        · intro u g r hmem
          rcases List.mem_append.mp hmem with h | h
          · exact hclean.2 u g r h
          · simp at h
      · have hr : createDirs K opts s =
            (EXIT_FAILURE, (create_dir_and_chown K opts.logDir opts.pw_uid opts.pw_gid s).2) := by
          simp [createDirs, ha]
        rw [hr, hadd1]
        refine ⟨rfl, rfl, ?_, hfr, ?_, hclean.1, hclean.2⟩
        · intro q hq
          exact cdc_frame K hK opts.logDir q hq opts.pw_uid opts.pw_gid s
        · simp [ha]

/-- C7, on explicit inputs: once with the log directory path taken by a
regular file, once with the PID directory path taken by one. -/
theorem createDirs_conflict_witness :
    ((∃ i, posix.stat (optsOf 3).logDir (St.start logConflictWorld).os = some i ∧
        (i.st_mode &&& S_IFMT) ≠ S_IFDIR) ∧
      (∃ i, posix.stat (optsOf 3).pidDir (St.start conflictWorld).os = some i ∧
        (i.st_mode &&& S_IFMT) ≠ S_IFDIR)) ∧
    ((createDirs posix (optsOf 3) (St.start logConflictWorld)).1 = EXIT_FAILURE ∧
      (createDirs posix (optsOf 3) (St.start logConflictWorld)).2.os =
        (St.start logConflictWorld).os ∧
      added (St.start logConflictWorld) (createDirs posix (optsOf 3) (St.start logConflictWorld)).2 =
        [Event.stat (optsOf 3).logDir true, Event.cerr]) ∧
    ((createDirs posix (optsOf 3) (St.start conflictWorld)).1 = EXIT_FAILURE ∧
      (createDirs posix (optsOf 3) (St.start conflictWorld)).2.os =
        (create_dir_and_chown posix (optsOf 3).logDir (optsOf 3).pw_uid (optsOf 3).pw_gid
          (St.start conflictWorld)).2.os ∧
      (∀ q : String, q ≠ (optsOf 3).logDir →
        posix.stat q (createDirs posix (optsOf 3) (St.start conflictWorld)).2.os =
          posix.stat q (St.start conflictWorld).os) ∧
      posix.stat (optsOf 3).pidDir (createDirs posix (optsOf 3) (St.start conflictWorld)).2.os =
        posix.stat (optsOf 3).pidDir (St.start conflictWorld).os ∧
      added (St.start conflictWorld) (createDirs posix (optsOf 3) (St.start conflictWorld)).2 =
        added (St.start conflictWorld)
            (create_dir_and_chown posix (optsOf 3).logDir (optsOf 3).pw_uid (optsOf 3).pw_gid
              (St.start conflictWorld)).2 ++
          (if (create_dir_and_chown posix (optsOf 3).logDir (optsOf 3).pw_uid (optsOf 3).pw_gid
              (St.start conflictWorld)).1 = 0
            then [Event.stat (optsOf 3).pidDir true, Event.cerr] else []) ∧
      (∀ (m : Nat) (r : Int),
        Event.mkdir (optsOf 3).pidDir m r ∉
          added (St.start conflictWorld) (createDirs posix (optsOf 3) (St.start conflictWorld)).2) ∧
      (∀ (u g : Nat) (r : Int),
        Event.chown (optsOf 3).pidDir u g r ∉
          added (St.start conflictWorld)
            (createDirs posix (optsOf 3) (St.start conflictWorld)).2)) :=
  have h1 : ∃ i, posix.stat (optsOf 3).logDir (St.start logConflictWorld).os = some i ∧
      (i.st_mode &&& S_IFMT) ≠ S_IFDIR :=
    ⟨{ st_mode := 0o100644, st_uid := 0, st_gid := 0 }, by decide, by decide⟩
  have h2 : ∃ i, posix.stat (optsOf 3).pidDir (St.start conflictWorld).os = some i ∧
      (i.st_mode &&& S_IFMT) ≠ S_IFDIR :=
    ⟨{ st_mode := 0o100644, st_uid := 0, st_gid := 0 }, by decide, by decide⟩
  ⟨⟨h1, h2⟩,
   (createDirs_conflict posix posix_laws (optsOf 3) (St.start logConflictWorld)).1 h1,
   (createDirs_conflict posix posix_laws (optsOf 3) (St.start conflictWorld)).2 h2⟩

/-- C7 as stated fails: the PID directory path is taken by a regular file and
the log directory does not exist.  `createDirs` returns failure, yet by then
it has created the log directory and changed its ownership. -/
theorem createDirs_fails_after_creating_logDir :
    posix.stat runPath (St.start conflictWorld).os =
      some { st_mode := 0o100644, st_uid := 0, st_gid := 0 } ∧
    posix.stat logPath (St.start conflictWorld).os = none ∧
    (createDirs posix (optsOf 3) (St.start conflictWorld)).1 = EXIT_FAILURE ∧
    posix.stat logPath (createDirs posix (optsOf 3) (St.start conflictWorld)).2.os =
      some { st_mode := 0o040750, st_uid := 991, st_gid := 991 } ∧
    (createDirs posix (optsOf 3) (St.start conflictWorld)).2.trace =
      [Event.stat logPath false, Event.mkdir logPath 0o750 0, Event.chown logPath 991 991 0,
       Event.stat runPath true, Event.cerr] := by
  decide

end DirClaims

/-! ## Claims on the running flag -/

section FlagClaims
variable {σ : Type}

/-- The main loop on an explicit input: SIGTERM caught during the second
sleep ends the loop and `run` returns 0. -/
theorem run_stops_after_signal :
    (run posix (optsOf 3) [[], [SIGTERM]] (St.start bareWorld)).map
        (fun r => (r.1, r.2.running_, r.2.trace)) =
      some (0, false,
        [Event.log Level.trace, Event.chdir "/" 0, Event.log Level.debug,
         Event.log Level.trace, Event.sleep 1,
         Event.log Level.trace, Event.sleep 1,
         Event.getLogger, Event.log Level.trace,
         Event.log Level.debug]) := by
  decide

end FlagClaims

end Luna
